import Mathlib

/-!
Verification of the retro-emulator cores (CHIP-8 and Game Boy) against
their natural-language specification.

The Lean definitions below are shallow embeddings of the Python sources:

* `Chip8.*` embeds the CHIP-8 core of `chip81.0.py` (class `Chip8`),
  in particular `_draw` (the `DXYN` sprite blit) and `_cls`.
* `GB.*` embeds the Game Boy core of `CAT'SGB.py` (classes `MMU`, `CPU`,
  `PPU` of the mGBA-style section): the memory map, the full LR35902
  instruction interpreter, and the background scanline renderer.

Byte arrays are embedded as total functions `Nat → Nat` together with
byte-boundedness invariants where a claim needs them; machine integers
are `Nat` (or `Int` where the Python value can go negative) with the
source's explicit masks (`&&& 0xFF`, `&&& 0xFFFF`, …) kept in place.
-/

/-- Pointwise update of a memory map (a Python `arr[i] = v` store). -/

def upd (g : Nat → Nat) (i v : Nat) : Nat → Nat :=
  fun j => if j = i then v else g j

namespace Chip8

/-- Display width, `Chip8.W` in the source. -/
def W : Nat := 64

/-- Display height, `Chip8.H` in the source. -/
def H : Nat := 32

/-- The linear framebuffer index written by `_draw` for sprite row `row`,
sprite bit `bit`: `x0 = vx % W`, `x = (x0 + bit) % W` (same for y), and
`idx = x + y * W`. -/
def drawIdx (vx vy row bit : Nat) : Nat :=
  ((vx % 64 + bit) % 64) + ((vy % 32 + row) % 32) * 64

/-- The framebuffer indices touched by one sprite row of `_draw`
(bits whose sprite pixel is clear are skipped by the `continue`):
`sprite = self.memory[(self.I + row) & 0x0FFF]`, keep bit when
`sprite & (0x80 >> bit)` is nonzero. -/
def rowPixels (mem : Nat → Nat) (i vx vy row : Nat) : List Nat :=
  ((List.range 8).filter
    (fun bit => mem ((i + row) &&& 0xFFF) &&& (0x80 >>> bit) != 0)).map
    (drawIdx vx vy row)

/-- All framebuffer indices toggled by `_draw`, in program order. -/
def drawList (mem : Nat → Nat) (i vx vy n : Nat) : List Nat :=
  (List.range n).flatMap (rowPixels mem i vx vy)

/-- One pixel of the `_draw` loop body: collision check
(`if self.gfx[idx] == 1: self.V[0xF] = 1`) then XOR blit
(`self.gfx[idx] ^= 1`). The pair is (framebuffer, V[0xF]). -/
def drawStep (p : (Nat → Nat) × Nat) (idx : Nat) : (Nat → Nat) × Nat :=
  (upd p.1 idx (p.1 idx ^^^ 1), if p.1 idx = 1 then 1 else p.2)

/-- `Chip8._draw`: V[0xF] is cleared, then every set sprite pixel is
XORed into the framebuffer, flagging a collision when a lit cell is hit. -/
def draw (mem : Nat → Nat) (i vx vy n : Nat) (gfx : Nat → Nat) :
    (Nat → Nat) × Nat :=
  (drawList mem i vx vy n).foldl drawStep (gfx, 0)

/-- Modelled from the spec: the clipping draw the specification describes
("rows/columns that would fall past the right/bottom edge are skipped"),
for comparison with the source's `draw`.  Identical to `drawList` except
that pixels stepping outside the display are dropped instead of wrapped. -/
def drawListClipped (mem : Nat → Nat) (i vx vy n : Nat) : List Nat :=
  (List.range n).flatMap (fun row =>
    (List.range 8).filterMap (fun bit =>
      if mem ((i + row) &&& 0xFFF) &&& (0x80 >>> bit) = 0 then none
      else if vx % 64 + bit < 64 ∧ vy % 32 + row < 32 then
        some (drawIdx vx vy row bit)
      else none))

/-- Modelled from the spec: clipped sprite draw (see `drawListClipped`). -/
def drawClipped (mem : Nat → Nat) (i vx vy n : Nat) (gfx : Nat → Nat) :
    (Nat → Nat) × Nat :=
  (drawListClipped mem i vx vy n).foldl drawStep (gfx, 0)

/-- `any(self.gfx)`: some cell of the 64×32 framebuffer is nonzero. -/
def anyPixel (g : Nat → Nat) : Bool :=
  (List.range (64 * 32)).any (fun idx => g idx != 0)

/-- `Chip8._cls`: the framebuffer is zeroed if any cell is lit
(`if any(self.gfx): self.gfx = [0] * (W * H)`). -/
def cls (g : Nat → Nat) : Nat → Nat :=
  if anyPixel g then fun _ => 0 else g

/-- XOR-toggle one cell, the framebuffer part of `drawStep`. -/
def tog (g : Nat → Nat) (idx : Nat) : Nat → Nat :=
  upd g idx (g idx ^^^ 1)

/-- A memory image whose every byte is `0xFF` (so the sprite rows read by
`_draw` are `0xFF`: all eight pixels set). -/
def memFF : Nat → Nat := fun _ => 0xFF

/-- The all-dark framebuffer. -/
def gfx0 : Nat → Nat := fun _ => 0

end Chip8

namespace GB

/-- `MMU` of `CAT'SGB.py`: byte stores as total maps, plus the MBC1-style
banking registers.  `rom` is the fixed 32 KiB, `romBanks` the list of
16 KiB banks captured at load, `ie` the single byte at `0xFFFF`. -/
structure GbMMU where
  rom : Nat → Nat
  romBanks : List (Nat → Nat)
  vram : Nat → Nat
  eram : Nat → Nat
  wram : Nat → Nat
  oam : Nat → Nat
  io : Nat → Nat
  hram : Nat → Nat
  ie : Nat
  romBank : Nat
  ramEnabled : Bool

/-- `MMU.reset`: all stores zeroed, `rom_bank = 1`, RAM disabled, and the
post-boot I/O defaults `LCDC = 0x91` (`io[0x40]`) and `BGP = 0xFC`
(`io[0x47]`). -/
def mmuReset : GbMMU where
  rom := fun _ => 0
  romBanks := []
  vram := fun _ => 0
  eram := fun _ => 0
  wram := fun _ => 0
  oam := fun _ => 0
  io := upd (upd (fun _ => 0) 0x40 0x91) 0x47 0xFC
  hram := fun _ => 0
  ie := 0
  romBank := 1
  ramEnabled := false

/-- `MMU.read`: the address is masked to 16 bits and dispatched by range.
The switchable region falls back to the fixed 32 KiB ROM unless
`rom_banks` is nonempty and `rom_bank` is in range; disabled external RAM
and the unmapped `0xFEA0`–`0xFEFF` hole read as `0xFF`. -/
def mmuRead (m : GbMMU) (addr0 : Nat) : Nat :=
  let addr := addr0 &&& 0xFFFF
  if addr < 0x4000 then m.rom addr
  else if addr < 0x8000 then
    if 0 < m.romBanks.length ∧ m.romBank < m.romBanks.length then
      (m.romBanks.getD m.romBank (fun _ => 0)) (addr - 0x4000)
    else m.rom addr
  else if addr < 0xA000 then m.vram (addr - 0x8000)
  else if addr < 0xC000 then
    if m.ramEnabled then m.eram (addr - 0xA000) else 0xFF
  else if addr < 0xE000 then m.wram (addr - 0xC000)
  else if addr < 0xFE00 then m.wram (addr - 0xE000)
  else if addr < 0xFEA0 then m.oam (addr - 0xFE00)
  else if addr < 0xFF00 then 0xFF
  else if addr < 0xFF80 then m.io (addr - 0xFF00)
  else if addr < 0xFFFF then m.hram (addr - 0xFF80)
  else m.ie

/-- `MMU.read` at Python-list level: every `bytearray` subscript carries its
bound check (`rom` has 0x8000 bytes, `vram`/`eram`/`wram` 0x2000, `oam`
0xA0, `io` 0x80, `hram` 0x7F, and every loaded bank 0x4000), an
out-of-range subscript being an `IndexError`, i.e. `none`. -/
def mmuReadChecked (m : GbMMU) (addr0 : Nat) : Option Nat :=
  let addr := addr0 &&& 0xFFFF
  if addr < 0x4000 then
    if addr < 0x8000 then some (m.rom addr) else none
  else if addr < 0x8000 then
    if 0 < m.romBanks.length ∧ m.romBank < m.romBanks.length then
      if addr - 0x4000 < 0x4000 then
        some ((m.romBanks.getD m.romBank (fun _ => 0)) (addr - 0x4000))
      else none
    else if addr < 0x8000 then some (m.rom addr) else none
  else if addr < 0xA000 then
    if addr - 0x8000 < 0x2000 then some (m.vram (addr - 0x8000)) else none
  else if addr < 0xC000 then
    if m.ramEnabled then
      if addr - 0xA000 < 0x2000 then some (m.eram (addr - 0xA000)) else none
    else some 0xFF
  else if addr < 0xE000 then
    if addr - 0xC000 < 0x2000 then some (m.wram (addr - 0xC000)) else none
  else if addr < 0xFE00 then
    if addr - 0xE000 < 0x2000 then some (m.wram (addr - 0xE000)) else none
  else if addr < 0xFEA0 then
    if addr - 0xFE00 < 0xA0 then some (m.oam (addr - 0xFE00)) else none
  else if addr < 0xFF00 then some 0xFF
  else if addr < 0xFF80 then
    if addr - 0xFF00 < 0x80 then some (m.io (addr - 0xFF00)) else none
  else if addr < 0xFFFF then
    if addr - 0xFF80 < 0x7F then some (m.hram (addr - 0xFF80)) else none
  else some m.ie

/-- One step of the `0xFF46` DMA loop:
`self.oam[i] = self.read(src + i)` with `src = val << 8`. -/
def dmaStep (src : Nat) (m : GbMMU) (i : Nat) : GbMMU :=
  { m with oam := upd m.oam i (mmuRead m (src + i)) }

/-- `MMU.write`: the address is masked to 16 bits, the value to 8 bits.
Writes below `0x8000` only drive the `ram_enabled` latch
(`(val & 0x0F) == 0x0A`) and the `rom_bank` selector (`val & 0x1F`, zero
remapped to one); a write to `0xFF46` first performs the 160-byte OAM DMA
from `val << 8`. -/
def mmuWrite (m : GbMMU) (addr0 val0 : Nat) : GbMMU :=
  let addr := addr0 &&& 0xFFFF
  let val := val0 &&& 0xFF
  if addr < 0x2000 then { m with ramEnabled := (val &&& 0x0F) = 0x0A }
  else if addr < 0x4000 then
    let rb := val &&& 0x1F
    { m with romBank := if rb = 0 then 1 else rb }
  else if addr < 0x8000 then m
  else if addr < 0xA000 then { m with vram := upd m.vram (addr - 0x8000) val }
  else if addr < 0xC000 then
    if m.ramEnabled then { m with eram := upd m.eram (addr - 0xA000) val }
    else m
  else if addr < 0xE000 then { m with wram := upd m.wram (addr - 0xC000) val }
  else if addr < 0xFE00 then { m with wram := upd m.wram (addr - 0xE000) val }
  else if addr < 0xFEA0 then { m with oam := upd m.oam (addr - 0xFE00) val }
  else if addr < 0xFF00 then m
  else if addr < 0xFF80 then
    let m1 := if addr = 0xFF46 then
        (List.range 0xA0).foldl (dmaStep (val <<< 8)) m
      else m
    { m1 with io := upd m1.io (addr - 0xFF00) val }
  else if addr < 0xFFFF then { m with hram := upd m.hram (addr - 0xFF80) val }
  else { m with ie := val }

/-- `MMU.load_rom`: reset, copy the first `min(len(data), 0x8000)` bytes
into `rom`, and when the data exceeds 32 KiB capture every 16 KiB slice
`data[b*0x4000:(b+1)*0x4000]` as a bank.  Always returns `True`. -/
def mmuLoadRom (data : List Nat) : GbMMU × Bool :=
  let rom' : Nat → Nat :=
    fun i => if i < min data.length 0x8000 then data.getD i 0 else 0
  let banks : List (Nat → Nat) :=
    if 0x8000 < data.length then
      (List.range (data.length / 0x4000)).map
        (fun b => fun i =>
          if i < 0x4000 then data.getD (b * 0x4000 + i) 0 else 0)
    else []
  ({ mmuReset with rom := rom', romBanks := banks }, true)

/-- Byte invariant: every stored cell of the MMU is a byte. -/
def mmuWF (m : GbMMU) : Prop :=
  (∀ i, m.rom i ≤ 0xFF) ∧
  (∀ bk ∈ m.romBanks, ∀ i, bk i ≤ 0xFF) ∧
  (∀ i, m.vram i ≤ 0xFF) ∧
  (∀ i, m.eram i ≤ 0xFF) ∧
  (∀ i, m.wram i ≤ 0xFF) ∧
  (∀ i, m.oam i ≤ 0xFF) ∧
  (∀ i, m.io i ≤ 0xFF) ∧
  (∀ i, m.hram i ≤ 0xFF) ∧
  m.ie ≤ 0xFF

end GB

/-- A 48 KiB all-zero cartridge image: three 16 KiB banks. -/
def GB.c4data : List Nat := List.replicate 0xC000 0

namespace GB

/-- The tile-pattern address computation of `PPU._render_scanline`
(VRAM-relative): `idx = vram[map]`, `if signed and idx > 127: idx -= 256`,
then `addr = tile_data + (idx + 128) * 16` when signed and
`tile_data + idx * 16` when unsigned. -/
def ppuTileAddr (tileData : Nat) (signed : Bool) (raw : Nat) : Int :=
  let idx : Int :=
    if signed then (if 127 < (raw : Int) then (raw : Int) - 256 else raw)
    else raw
  if signed then tileData + (idx + 128) * 16 else tileData + idx * 16

/-- `PPU._render_scanline`: render the 160-pixel background scanline `ly`
into the framebuffer (row-major `ly * 160 + x`), reading SCY/SCX/BGP and
the LCDC-selected tile map and tile data area.  When `LCDC.0` is clear
the scanline is filled with colour 0; when `LCDC.7` is clear nothing is
drawn. -/
def renderScanline (m : GbMMU) (fb : Nat → Nat) (ly : Nat) : Nat → Nat :=
  let lcdc := m.io 0x40
  if lcdc &&& 0x80 = 0 then fb
  else
    let scy := m.io 0x42
    let scx := m.io 0x43
    let bgp := m.io 0x47
    let pal : Nat → Nat := fun c => (bgp >>> (2 * c)) &&& 3
    if lcdc &&& 0x01 ≠ 0 then
      let tileMap := if lcdc &&& 0x08 ≠ 0 then 0x1C00 else 0x1800
      let tileData := if lcdc &&& 0x10 ≠ 0 then 0x0000 else 0x1000
      let signed : Bool := lcdc &&& 0x10 == 0
      let y := (ly + scy) &&& 0xFF
      let tileRow := y / 8
      let tileY := y % 8
      (List.range 160).foldl
        (fun fb x =>
          let mx := (x + scx) &&& 0xFF
          let tileCol := mx / 8
          let tileX := mx % 8
          let raw := m.vram (tileMap + tileRow * 32 + tileCol)
          let addr := (ppuTileAddr tileData signed raw).toNat
          let b1 := m.vram (addr + tileY * 2)
          let b2 := m.vram (addr + tileY * 2 + 1)
          let bit := 7 - tileX
          let col := (((b2 >>> bit) &&& 1) <<< 1) ||| ((b1 >>> bit) &&& 1)
          upd fb (ly * 160 + x) (pal col))
        fb
    else
      (List.range 160).foldl (fun fb x => upd fb (ly * 160 + x) 0) fb

/-- `CPU` of `CAT'SGB.py`: eight 8-bit registers, `SP`, `PC`, the
interrupt master enable and the `halted` flag, plus the attached MMU.
(The source also sets a `cycles` counter to 0 in `reset` but never reads
or updates it afterwards; it is omitted.) -/
structure GbCPU where
  a : Nat
  f : Nat
  b : Nat
  c : Nat
  d : Nat
  e : Nat
  h : Nat
  l : Nat
  sp : Nat
  pc : Nat
  ime : Bool
  halted : Bool
  mmu : GbMMU

/-- `CPU.reset`: the DMG post-boot register file. -/
def cpuReset (m : GbMMU) : GbCPU where
  a := 0x01
  f := 0xB0
  b := 0x00
  c := 0x13
  d := 0x00
  e := 0xD8
  h := 0x01
  l := 0x4D
  sp := 0xFFFE
  pc := 0x0100
  ime := false
  halted := false
  mmu := m

/-- Flag getters (`zf`/`nf`/`hf`/`cf` properties): `bool(f & bit)`. -/
def zf (st : GbCPU) : Bool := st.f &&& 0x80 != 0

def nf (st : GbCPU) : Bool := st.f &&& 0x40 != 0

def hf (st : GbCPU) : Bool := st.f &&& 0x20 != 0

def cf (st : GbCPU) : Bool := st.f &&& 0x10 != 0

/-- `zf` setter: `f = (f & 0x7F) | (0x80 if v else 0)`. -/
def setZf (st : GbCPU) (v : Bool) : GbCPU :=
  { st with f := (st.f &&& 0x7F) ||| (if v then 0x80 else 0) }

/-- `nf` setter: `f = (f & 0xBF) | (0x40 if v else 0)`. -/
def setNf (st : GbCPU) (v : Bool) : GbCPU :=
  { st with f := (st.f &&& 0xBF) ||| (if v then 0x40 else 0) }

/-- `hf` setter: `f = (f & 0xDF) | (0x20 if v else 0)`. -/
def setHf (st : GbCPU) (v : Bool) : GbCPU :=
  { st with f := (st.f &&& 0xDF) ||| (if v then 0x20 else 0) }

/-- `cf` setter: `f = (f & 0xEF) | (0x10 if v else 0)`. -/
def setCf (st : GbCPU) (v : Bool) : GbCPU :=
  { st with f := (st.f &&& 0xEF) ||| (if v then 0x10 else 0) }

/-- `af` getter: `(a << 8) | (f & 0xF0)`. -/
def af (st : GbCPU) : Nat := (st.a <<< 8) ||| (st.f &&& 0xF0)

/-- `af` setter: `a, f = (v >> 8) & 0xFF, v & 0xF0`. -/
def setAf (st : GbCPU) (v : Nat) : GbCPU :=
  { st with a := (v >>> 8) &&& 0xFF, f := v &&& 0xF0 }

def bc (st : GbCPU) : Nat := (st.b <<< 8) ||| st.c

def setBc (st : GbCPU) (v : Nat) : GbCPU :=
  { st with b := (v >>> 8) &&& 0xFF, c := v &&& 0xFF }

def de (st : GbCPU) : Nat := (st.d <<< 8) ||| st.e

def setDe (st : GbCPU) (v : Nat) : GbCPU :=
  { st with d := (v >>> 8) &&& 0xFF, e := v &&& 0xFF }

def hl (st : GbCPU) : Nat := (st.h <<< 8) ||| st.l

def setHl (st : GbCPU) (v : Nat) : GbCPU :=
  { st with h := (v >>> 8) &&& 0xFF, l := v &&& 0xFF }

/-- `CPU.fetch`: read the byte at `pc` and advance `pc` (mod 2^16). -/
def fetch (st : GbCPU) : Nat × GbCPU :=
  (mmuRead st.mmu st.pc, { st with pc := (st.pc + 1) &&& 0xFFFF })

/-- `CPU.fetch16`: little-endian 16-bit fetch. -/
def fetch16 (st : GbCPU) : Nat × GbCPU :=
  let (lo, st1) := fetch st
  let (hi, st2) := fetch st1
  ((hi <<< 8) ||| lo, st2)

/-- `CPU.push`: decrement `sp`, write the high byte, decrement again,
write the low byte.  Python's `(sp - 1) & 0xFFFF` (taken over ℤ) is
embedded as `(sp + 0xFFFF) &&& 0xFFFF`, which agrees with it for every
`sp : Nat` including `sp = 0`; the two sequential mutations are folded
into one record update. -/
def cpuPush (st : GbCPU) (v : Nat) : GbCPU :=
  let sp1 := (st.sp + 0xFFFF) &&& 0xFFFF
  let m1 := mmuWrite st.mmu sp1 ((v >>> 8) &&& 0xFF)
  let sp2 := (sp1 + 0xFFFF) &&& 0xFFFF
  { st with sp := sp2, mmu := mmuWrite m1 sp2 (v &&& 0xFF) }

/-- `CPU.pop`. -/
def cpuPop (st : GbCPU) : Nat × GbCPU :=
  let lo := mmuRead st.mmu st.sp
  let st1 := { st with sp := (st.sp + 1) &&& 0xFFFF }
  let hi := mmuRead st1.mmu st1.sp
  let st2 := { st1 with sp := (st1.sp + 1) &&& 0xFFFF }
  ((hi <<< 8) ||| lo, st2)

/-- `CPU._inc`: 8-bit increment, setting Z, N, H. -/
def cpuInc (st : GbCPU) (v : Nat) : GbCPU × Nat :=
  let r := (v + 1) &&& 0xFF
  (setHf (setNf (setZf st (r == 0)) false) ((v &&& 0x0F) == 0x0F), r)

/-- `CPU._dec`: 8-bit decrement (`(v - 1) & 0xFF` over ℤ embedded as
`(v + 0xFF) &&& 0xFF`), setting Z, N, H. -/
def cpuDec (st : GbCPU) (v : Nat) : GbCPU × Nat :=
  let r := (v + 0xFF) &&& 0xFF
  (setHf (setNf (setZf st (r == 0)) true) ((v &&& 0x0F) == 0), r)

/-- `CPU._add_hl`: 16-bit `ADD HL, v` with H from bit 11 and C from
bit 15. -/
def addHl (st : GbCPU) (v : Nat) : GbCPU :=
  let r := hl st + v
  let st1 := setNf st false
  let st2 := setHf st1 (((hl st &&& 0xFFF) + (v &&& 0xFFF)) > 0xFFF)
  let st3 := setCf st2 (r > 0xFFFF)
  setHl st3 (r &&& 0xFFFF)

/-- `CPU._get_r`: operand fetch for the 8-entry register file
(`b c d e h l (hl) a`); reading `(hl)` goes through the MMU (pure). -/
def getR (st : GbCPU) (r : Nat) : Nat :=
  if r = 0 then st.b
  else if r = 1 then st.c
  else if r = 2 then st.d
  else if r = 3 then st.e
  else if r = 4 then st.h
  else if r = 5 then st.l
  else if r = 6 then mmuRead st.mmu (hl st)
  else st.a

/-- `CPU._set_r`: operand store (masked to 8 bits); storing to `(hl)`
writes through the MMU. -/
def setR (st : GbCPU) (r v0 : Nat) : GbCPU :=
  let v := v0 &&& 0xFF
  if r = 0 then { st with b := v }
  else if r = 1 then { st with c := v }
  else if r = 2 then { st with d := v }
  else if r = 3 then { st with e := v }
  else if r = 4 then { st with h := v }
  else if r = 5 then { st with l := v }
  else if r = 6 then { st with mmu := mmuWrite st.mmu (hl st) v }
  else { st with a := v }

/-- `CPU._alu`: the eight accumulator operations
(ADD ADC SUB SBC AND XOR OR CP); subtraction is taken over ℤ as in the
source (`r < 0` borrow test, `r & 0xFF` wrap). -/
def cpuAlu (st : GbCPU) (aop v : Nat) : GbCPU :=
  if aop = 0 then
    let r := st.a + v
    let st1 := setHf st (((st.a &&& 0x0F) + (v &&& 0x0F)) > 0x0F)
    let st2 := setCf st1 (r > 0xFF)
    let st3 := { st2 with a := r &&& 0xFF }
    setNf (setZf st3 (st3.a == 0)) false
  else if aop = 1 then
    let cv := if cf st then 1 else 0
    let r := st.a + v + cv
    let st1 := setHf st (((st.a &&& 0x0F) + (v &&& 0x0F) + cv) > 0x0F)
    let st2 := setCf st1 (r > 0xFF)
    let st3 := { st2 with a := r &&& 0xFF }
    setNf (setZf st3 (st3.a == 0)) false
  else if aop = 2 then
    let r : Int := (st.a : Int) - (v : Int)
    let st1 := setHf st ((st.a &&& 0x0F) < (v &&& 0x0F))
    let st2 := setCf st1 (r < 0)
    let st3 := { st2 with a := (r % 256).toNat }
    setNf (setZf st3 (st3.a == 0)) true
  else if aop = 3 then
    let cv : Int := if cf st then 1 else 0
    let r : Int := (st.a : Int) - (v : Int) - cv
    let st1 := setHf st (((st.a &&& 0x0F : Nat) : Int) < ((v &&& 0x0F : Nat) : Int) + cv)
    let st2 := setCf st1 (r < 0)
    let st3 := { st2 with a := (r % 256).toNat }
    setNf (setZf st3 (st3.a == 0)) true
  else if aop = 4 then
    let st1 := { st with a := st.a &&& v }
    setCf (setHf (setNf (setZf st1 (st1.a == 0)) false) true) false
  else if aop = 5 then
    let st1 := { st with a := st.a ^^^ v }
    setCf (setHf (setNf (setZf st1 (st1.a == 0)) false) false) false
  else if aop = 6 then
    let st1 := { st with a := st.a ||| v }
    setCf (setHf (setNf (setZf st1 (st1.a == 0)) false) false) false
  else if aop = 7 then
    let r : Int := (st.a : Int) - (v : Int)
    let st1 := setNf (setZf st ((r % 256) == 0)) true
    let st2 := setHf st1 ((st.a &&& 0x0F) < (v &&& 0x0F))
    setCf st2 (r < 0)
  else st

/-- Relative-jump target: `off` is the raw fetched byte, reinterpreted as
signed (`off -= 256` when `off > 127`), and `pc = (pc + off) & 0xFFFF`
over ℤ. -/
def jrRel (st : GbCPU) (off : Nat) : GbCPU :=
  let o : Int := if 127 < off then (off : Int) - 256 else (off : Int)
  { st with pc := (((st.pc : Int) + o) % 65536).toNat }

/-- `CPU._exec_cb`: the 256-entry `0xCB` page — RLC RRC RL RR SLA SRA
SWAP SRL on `op < 0x40`, `BIT` on `0x40 ≤ op < 0x80` (flags only, no
store), `RES`/`SET` above (Python's `v &= ~(1 << bit)` is embedded as
`v - (v &&& (1 <<< bit))`, equal to it on ℕ).  Every branch but `BIT`
ends in the source's shared `_set_r(r, v)` tail. -/
def cpuExecCb (st : GbCPU) (op : Nat) : GbCPU × Nat :=
  let r := op &&& 7
  let v := getR st r
  let cyc := if r = 6 then 16 else 8
  if op < 0x08 then
    let cv := (v >>> 7) &&& 1
    let v2 := ((v <<< 1) ||| cv) &&& 0xFF
    let st1 := setCf (setHf (setNf (setZf st (v2 == 0)) false) false) (cv != 0)
    (setR st1 r v2, cyc)
  else if op < 0x10 then
    let cv := v &&& 1
    let v2 := ((v >>> 1) ||| (cv <<< 7)) &&& 0xFF
    let st1 := setCf (setHf (setNf (setZf st (v2 == 0)) false) false) (cv != 0)
    (setR st1 r v2, cyc)
  else if op < 0x18 then
    let cv := if cf st then 1 else 0
    let nc := (v >>> 7) &&& 1
    let v2 := ((v <<< 1) ||| cv) &&& 0xFF
    let st1 := setCf (setHf (setNf (setZf st (v2 == 0)) false) false) (nc != 0)
    (setR st1 r v2, cyc)
  else if op < 0x20 then
    let cv := if cf st then 1 else 0
    let nc := v &&& 1
    let v2 := ((v >>> 1) ||| (cv <<< 7)) &&& 0xFF
    let st1 := setCf (setHf (setNf (setZf st (v2 == 0)) false) false) (nc != 0)
    (setR st1 r v2, cyc)
  else if op < 0x28 then
    let cv := (v >>> 7) &&& 1
    let v2 := (v <<< 1) &&& 0xFF
    let st1 := setCf (setHf (setNf (setZf st (v2 == 0)) false) false) (cv != 0)
    (setR st1 r v2, cyc)
  else if op < 0x30 then
    let cv := v &&& 1
    let v2 := ((v >>> 1) ||| (v &&& 0x80)) &&& 0xFF
    let st1 := setCf (setHf (setNf (setZf st (v2 == 0)) false) false) (cv != 0)
    (setR st1 r v2, cyc)
  else if op < 0x38 then
    let v2 := ((v >>> 4) ||| (v <<< 4)) &&& 0xFF
    let st1 := setCf (setHf (setNf (setZf st (v2 == 0)) false) false) false
    (setR st1 r v2, cyc)
  else if op < 0x40 then
    let cv := v &&& 1
    let v2 := (v >>> 1) &&& 0xFF
    let st1 := setCf (setHf (setNf (setZf st (v2 == 0)) false) false) (cv != 0)
    (setR st1 r v2, cyc)
  else if op < 0x80 then
    let bit := (op >>> 3) &&& 7
    let st1 := setHf (setNf (setZf st (v &&& (1 <<< bit) == 0)) false) true
    (st1, if r = 6 then 12 else 8)
  else if op < 0xC0 then
    let v2 := v - (v &&& (1 <<< ((op >>> 3) &&& 7)))
    (setR st r v2, cyc)
  else
    let v2 := v ||| (1 <<< ((op >>> 3) &&& 7))
    (setR st r v2, cyc)

/-- `CPU._exec`, continued: the chain of `elif` branches from opcode `0xF8` through `0xFF`.  Together, `cpuExec` and the `cpuExecSeg` functions are the source's single if/elif chain, split into consecutive runs of eight branches. -/
def cpuExecSeg15 (st : GbCPU) (op : Nat) : GbCPU × Nat :=
  if op = 0xF8 then
    let p := fetch st
    let n : Int := if 127 < p.1 then (p.1 : Int) - 256 else (p.1 : Int)
    let res := (((p.2.sp : Int) + n) % 65536).toNat
    let st2 := setNf (setZf p.2 false) false
    let st3 := setHf st2 (((st2.sp &&& 0x0F) + (p.1 &&& 0x0F)) > 0x0F)
    let st4 := setCf st3 (((st3.sp &&& 0xFF) + (p.1 &&& 0xFF)) > 0xFF)
    (setHl st4 res, 12)
  else if op = 0xF9 then ({ st with sp := hl st }, 8)
  else if op = 0xFA then
    let p := fetch16 st
    ({ p.2 with a := mmuRead p.2.mmu p.1 }, 16)
  else if op = 0xFB then ({ st with ime := true }, 4)
  else if op = 0xFE then
    let p := fetch st
    (cpuAlu p.2 7 p.1, 8)
  else if op = 0xFF then ({ cpuPush st st.pc with pc := 0x38 }, 16)
  else (st, 4)

/-- `CPU._exec`, continued: the chain of `elif` branches from opcode `0xEF` through `0xF7`.  Together, `cpuExec` and the `cpuExecSeg` functions are the source's single if/elif chain, split into consecutive runs of eight branches. -/
def cpuExecSeg14 (st : GbCPU) (op : Nat) : GbCPU × Nat :=
  if op = 0xEF then ({ cpuPush st st.pc with pc := 0x28 }, 16)
  else if op = 0xF0 then
    let p := fetch st
    ({ p.2 with a := mmuRead p.2.mmu (0xFF00 + p.1) }, 12)
  else if op = 0xF1 then
    let p := cpuPop st
    (setAf p.2 p.1, 12)
  else if op = 0xF2 then ({ st with a := mmuRead st.mmu (0xFF00 + st.c) }, 8)
  else if op = 0xF3 then ({ st with ime := false }, 4)
  else if op = 0xF5 then (cpuPush st (af st), 16)
  else if op = 0xF6 then
    let p := fetch st
    (cpuAlu p.2 6 p.1, 8)
  else if op = 0xF7 then ({ cpuPush st st.pc with pc := 0x30 }, 16)
  else cpuExecSeg15 st op

/-- `CPU._exec`, continued: the chain of `elif` branches from opcode `0xE2` through `0xEE`.  Together, `cpuExec` and the `cpuExecSeg` functions are the source's single if/elif chain, split into consecutive runs of eight branches. -/
def cpuExecSeg13 (st : GbCPU) (op : Nat) : GbCPU × Nat :=
  if op = 0xE2 then
    ({ st with mmu := mmuWrite st.mmu (0xFF00 + st.c) st.a }, 8)
  else if op = 0xE5 then (cpuPush st (hl st), 16)
  else if op = 0xE6 then
    let p := fetch st
    (cpuAlu p.2 4 p.1, 8)
  else if op = 0xE7 then ({ cpuPush st st.pc with pc := 0x20 }, 16)
  else if op = 0xE8 then
    let p := fetch st
    let n : Int := if 127 < p.1 then (p.1 : Int) - 256 else (p.1 : Int)
    let res := (((p.2.sp : Int) + n) % 65536).toNat
    let st2 := setNf (setZf p.2 false) false
    let st3 := setHf st2 (((st2.sp &&& 0x0F) + (p.1 &&& 0x0F)) > 0x0F)
    let st4 := setCf st3 (((st3.sp &&& 0xFF) + (p.1 &&& 0xFF)) > 0xFF)
    ({ st4 with sp := res }, 16)
  else if op = 0xE9 then ({ st with pc := hl st }, 4)
  else if op = 0xEA then
    let p := fetch16 st
    ({ p.2 with mmu := mmuWrite p.2.mmu p.1 p.2.a }, 16)
  else if op = 0xEE then
    let p := fetch st
    (cpuAlu p.2 5 p.1, 8)
  else cpuExecSeg14 st op

/-- `CPU._exec`, continued: the chain of `elif` branches from opcode `0xD8` through `0xE1`.  Together, `cpuExec` and the `cpuExecSeg` functions are the source's single if/elif chain, split into consecutive runs of eight branches. -/
def cpuExecSeg12 (st : GbCPU) (op : Nat) : GbCPU × Nat :=
  if op = 0xD8 then
    if cf st then
      let p := cpuPop st
      ({ p.2 with pc := p.1 }, 20)
    else (st, 8)
  else if op = 0xD9 then
    let p := cpuPop st
    ({ p.2 with pc := p.1, ime := true }, 16)
  else if op = 0xDA then
    let p := fetch16 st
    if cf p.2 then ({ p.2 with pc := p.1 }, 16) else (p.2, 12)
  else if op = 0xDC then
    let p := fetch16 st
    if cf p.2 then ({ cpuPush p.2 p.2.pc with pc := p.1 }, 24)
    else (p.2, 12)
  else if op = 0xDE then
    let p := fetch st
    (cpuAlu p.2 3 p.1, 8)
  else if op = 0xDF then ({ cpuPush st st.pc with pc := 0x18 }, 16)
  else if op = 0xE0 then
    let p := fetch st
    ({ p.2 with mmu := mmuWrite p.2.mmu (0xFF00 + p.1) p.2.a }, 12)
  else if op = 0xE1 then
    let p := cpuPop st
    (setHl p.2 p.1, 12)
  else cpuExecSeg13 st op

/-- `CPU._exec`, continued: the chain of `elif` branches from opcode `0xCF` through `0xD7`.  Together, `cpuExec` and the `cpuExecSeg` functions are the source's single if/elif chain, split into consecutive runs of eight branches. -/
def cpuExecSeg11 (st : GbCPU) (op : Nat) : GbCPU × Nat :=
  if op = 0xCF then ({ cpuPush st st.pc with pc := 0x08 }, 16)
  else if op = 0xD0 then
    if cf st then (st, 8)
    else
      let p := cpuPop st
      ({ p.2 with pc := p.1 }, 20)
  else if op = 0xD1 then
    let p := cpuPop st
    (setDe p.2 p.1, 12)
  else if op = 0xD2 then
    let p := fetch16 st
    if cf p.2 then (p.2, 12) else ({ p.2 with pc := p.1 }, 16)
  else if op = 0xD4 then
    let p := fetch16 st
    if cf p.2 then (p.2, 12)
    else ({ cpuPush p.2 p.2.pc with pc := p.1 }, 24)
  else if op = 0xD5 then (cpuPush st (de st), 16)
  else if op = 0xD6 then
    let p := fetch st
    (cpuAlu p.2 2 p.1, 8)
  else if op = 0xD7 then ({ cpuPush st st.pc with pc := 0x10 }, 16)
  else cpuExecSeg12 st op

/-- `CPU._exec`, continued: the chain of `elif` branches from opcode `0xC7` through `0xCE`.  Together, `cpuExec` and the `cpuExecSeg` functions are the source's single if/elif chain, split into consecutive runs of eight branches. -/
def cpuExecSeg10 (st : GbCPU) (op : Nat) : GbCPU × Nat :=
  if op = 0xC7 then ({ cpuPush st st.pc with pc := 0x00 }, 16)
  else if op = 0xC8 then
    if zf st then
      let p := cpuPop st
      ({ p.2 with pc := p.1 }, 20)
    else (st, 8)
  else if op = 0xC9 then
    let p := cpuPop st
    ({ p.2 with pc := p.1 }, 16)
  else if op = 0xCA then
    let p := fetch16 st
    if zf p.2 then ({ p.2 with pc := p.1 }, 16) else (p.2, 12)
  else if op = 0xCB then
    let p := fetch st
    cpuExecCb p.2 p.1
  else if op = 0xCC then
    let p := fetch16 st
    if zf p.2 then ({ cpuPush p.2 p.2.pc with pc := p.1 }, 24)
    else (p.2, 12)
  else if op = 0xCD then
    let p := fetch16 st
    ({ cpuPush p.2 p.2.pc with pc := p.1 }, 24)
  else if op = 0xCE then
    let p := fetch st
    (cpuAlu p.2 1 p.1, 8)
  else cpuExecSeg11 st op

/-- `CPU._exec`, continued: the chain of `elif` branches from opcode `0x80-range` through `0xC6`.  Together, `cpuExec` and the `cpuExecSeg` functions are the source's single if/elif chain, split into consecutive runs of eight branches. -/
def cpuExecSeg9 (st : GbCPU) (op : Nat) : GbCPU × Nat :=
  if 0x80 ≤ op ∧ op ≤ 0xBF then
    (cpuAlu st ((op >>> 3) &&& 7) (getR st (op &&& 7)),
     if op &&& 7 = 6 then 8 else 4)
  else if op = 0xC0 then
    if zf st then (st, 8)
    else
      let p := cpuPop st
      ({ p.2 with pc := p.1 }, 20)
  else if op = 0xC1 then
    let p := cpuPop st
    (setBc p.2 p.1, 12)
  else if op = 0xC2 then
    let p := fetch16 st
    if zf p.2 then (p.2, 12) else ({ p.2 with pc := p.1 }, 16)
  else if op = 0xC3 then
    let p := fetch16 st
    ({ p.2 with pc := p.1 }, 16)
  else if op = 0xC4 then
    let p := fetch16 st
    if zf p.2 then (p.2, 12)
    else ({ cpuPush p.2 p.2.pc with pc := p.1 }, 24)
  else if op = 0xC5 then (cpuPush st (bc st), 16)
  else if op = 0xC6 then
    let p := fetch st
    (cpuAlu p.2 0 p.1, 8)
  else cpuExecSeg10 st op

/-- `CPU._exec`, continued: the chain of `elif` branches from opcode `0x39` through `0x40-range`.  Together, `cpuExec` and the `cpuExecSeg` functions are the source's single if/elif chain, split into consecutive runs of eight branches. -/
def cpuExecSeg8 (st : GbCPU) (op : Nat) : GbCPU × Nat :=
  if op = 0x39 then (addHl st st.sp, 8)
  else if op = 0x3A then
    let st1 := { st with a := mmuRead st.mmu (hl st) }
    (setHl st1 ((hl st1 + 0xFFFF) &&& 0xFFFF), 8)
  else if op = 0x3B then ({ st with sp := (st.sp + 0xFFFF) &&& 0xFFFF }, 8)
  else if op = 0x3C then
    let p := cpuInc st st.a
    ({ p.1 with a := p.2 }, 4)
  else if op = 0x3D then
    let p := cpuDec st st.a
    ({ p.1 with a := p.2 }, 4)
  else if op = 0x3E then
    let p := fetch st
    ({ p.2 with a := p.1 }, 8)
  else if op = 0x3F then (setCf (setHf (setNf st false) false) (!(cf st)), 4)
  else if 0x40 ≤ op ∧ op ≤ 0x7F then
    if op = 0x76 then ({ st with halted := true }, 4)
    else
      (setR st ((op >>> 3) &&& 7) (getR st (op &&& 7)),
       if op &&& 7 = 6 ∨ (op >>> 3) &&& 7 = 6 then 8 else 4)
  else cpuExecSeg9 st op

/-- `CPU._exec`, continued: the chain of `elif` branches from opcode `0x31` through `0x38`.  Together, `cpuExec` and the `cpuExecSeg` functions are the source's single if/elif chain, split into consecutive runs of eight branches. -/
def cpuExecSeg7 (st : GbCPU) (op : Nat) : GbCPU × Nat :=
  if op = 0x31 then
    let p := fetch16 st
    ({ p.2 with sp := p.1 }, 12)
  else if op = 0x32 then
    let st1 := { st with mmu := mmuWrite st.mmu (hl st) st.a }
    (setHl st1 ((hl st1 + 0xFFFF) &&& 0xFFFF), 8)
  else if op = 0x33 then ({ st with sp := (st.sp + 1) &&& 0xFFFF }, 8)
  else if op = 0x34 then
    let p := cpuInc st (mmuRead st.mmu (hl st))
    ({ p.1 with mmu := mmuWrite p.1.mmu (hl p.1) p.2 }, 12)
  else if op = 0x35 then
    let p := cpuDec st (mmuRead st.mmu (hl st))
    ({ p.1 with mmu := mmuWrite p.1.mmu (hl p.1) p.2 }, 12)
  else if op = 0x36 then
    let p := fetch st
    ({ p.2 with mmu := mmuWrite p.2.mmu (hl p.2) p.1 }, 12)
  else if op = 0x37 then (setCf (setHf (setNf st false) false) true, 4)
  else if op = 0x38 then
    let p := fetch st
    if cf p.2 then (jrRel p.2 p.1, 12) else (p.2, 8)
  else cpuExecSeg8 st op

/-- `CPU._exec`, continued: the chain of `elif` branches from opcode `0x29` through `0x30`.  Together, `cpuExec` and the `cpuExecSeg` functions are the source's single if/elif chain, split into consecutive runs of eight branches. -/
def cpuExecSeg6 (st : GbCPU) (op : Nat) : GbCPU × Nat :=
  if op = 0x29 then (addHl st (hl st), 8)
  else if op = 0x2A then
    let st1 := { st with a := mmuRead st.mmu (hl st) }
    (setHl st1 ((hl st1 + 1) &&& 0xFFFF), 8)
  else if op = 0x2B then (setHl st ((hl st + 0xFFFF) &&& 0xFFFF), 8)
  else if op = 0x2C then
    let p := cpuInc st st.l
    ({ p.1 with l := p.2 }, 4)
  else if op = 0x2D then
    let p := cpuDec st st.l
    ({ p.1 with l := p.2 }, 4)
  else if op = 0x2E then
    let p := fetch st
    ({ p.2 with l := p.1 }, 8)
  else if op = 0x2F then
    let st1 := { st with a := ((-(st.a : Int) - 1) % 256).toNat }
    (setHf (setNf st1 true) true, 4)
  else if op = 0x30 then
    let p := fetch st
    if cf p.2 then (p.2, 8) else (jrRel p.2 p.1, 12)
  else cpuExecSeg7 st op

/-- `CPU._exec`, continued: the chain of `elif` branches from opcode `0x21` through `0x28`.  Together, `cpuExec` and the `cpuExecSeg` functions are the source's single if/elif chain, split into consecutive runs of eight branches. -/
def cpuExecSeg5 (st : GbCPU) (op : Nat) : GbCPU × Nat :=
  if op = 0x21 then
    let p := fetch16 st
    (setHl p.2 p.1, 12)
  else if op = 0x22 then
    let st1 := { st with mmu := mmuWrite st.mmu (hl st) st.a }
    (setHl st1 ((hl st1 + 1) &&& 0xFFFF), 8)
  else if op = 0x23 then (setHl st ((hl st + 1) &&& 0xFFFF), 8)
  else if op = 0x24 then
    let p := cpuInc st st.h
    ({ p.1 with h := p.2 }, 4)
  else if op = 0x25 then
    let p := cpuDec st st.h
    ({ p.1 with h := p.2 }, 4)
  else if op = 0x26 then
    let p := fetch st
    ({ p.2 with h := p.1 }, 8)
  else if op = 0x27 then
    if nf st then
      let a1 : Int := if cf st then (st.a : Int) - 0x60 else (st.a : Int)
      let a2 : Int := if hf st then a1 - 0x06 else a1
      let st2 := { st with a := (a2 % 256).toNat }
      (setHf (setZf st2 (st2.a == 0)) false, 4)
    else
      let a1 := if cf st ∨ 0x99 < st.a then st.a + 0x60 else st.a
      let stc := if cf st ∨ 0x99 < st.a then setCf st true else st
      let a2 := if hf st ∨ 0x09 < (a1 &&& 0x0F) then a1 + 0x06 else a1
      let st2 := { stc with a := a2 &&& 0xFF }
      (setHf (setZf st2 (st2.a == 0)) false, 4)
  else if op = 0x28 then
    let p := fetch st
    if zf p.2 then (jrRel p.2 p.1, 12) else (p.2, 8)
  else cpuExecSeg6 st op

/-- `CPU._exec`, continued: the chain of `elif` branches from opcode `0x19` through `0x20`.  Together, `cpuExec` and the `cpuExecSeg` functions are the source's single if/elif chain, split into consecutive runs of eight branches. -/
def cpuExecSeg4 (st : GbCPU) (op : Nat) : GbCPU × Nat :=
  if op = 0x19 then (addHl st (de st), 8)
  else if op = 0x1A then ({ st with a := mmuRead st.mmu (de st) }, 8)
  else if op = 0x1B then (setDe st ((de st + 0xFFFF) &&& 0xFFFF), 8)
  else if op = 0x1C then
    let p := cpuInc st st.e
    ({ p.1 with e := p.2 }, 4)
  else if op = 0x1D then
    let p := cpuDec st st.e
    ({ p.1 with e := p.2 }, 4)
  else if op = 0x1E then
    let p := fetch st
    ({ p.2 with e := p.1 }, 8)
  else if op = 0x1F then
    let cv := if cf st then 1 else 0
    let nc := st.a &&& 1
    let st1 := { st with a := ((st.a >>> 1) ||| (cv <<< 7)) &&& 0xFF }
    (setCf (setHf (setNf (setZf st1 false) false) false) (nc != 0), 4)
  else if op = 0x20 then
    let p := fetch st
    if zf p.2 then (p.2, 8) else (jrRel p.2 p.1, 12)
  else cpuExecSeg5 st op

/-- `CPU._exec`, continued: the chain of `elif` branches from opcode `0x11` through `0x18`.  Together, `cpuExec` and the `cpuExecSeg` functions are the source's single if/elif chain, split into consecutive runs of eight branches. -/
def cpuExecSeg3 (st : GbCPU) (op : Nat) : GbCPU × Nat :=
  if op = 0x11 then
    let p := fetch16 st
    (setDe p.2 p.1, 12)
  else if op = 0x12 then ({ st with mmu := mmuWrite st.mmu (de st) st.a }, 8)
  else if op = 0x13 then (setDe st ((de st + 1) &&& 0xFFFF), 8)
  else if op = 0x14 then
    let p := cpuInc st st.d
    ({ p.1 with d := p.2 }, 4)
  else if op = 0x15 then
    let p := cpuDec st st.d
    ({ p.1 with d := p.2 }, 4)
  else if op = 0x16 then
    let p := fetch st
    ({ p.2 with d := p.1 }, 8)
  else if op = 0x17 then
    let cv := if cf st then 1 else 0
    let nc := (st.a >>> 7) &&& 1
    let st1 := { st with a := ((st.a <<< 1) ||| cv) &&& 0xFF }
    (setCf (setHf (setNf (setZf st1 false) false) false) (nc != 0), 4)
  else if op = 0x18 then
    let p := fetch st
    (jrRel p.2 p.1, 12)
  else cpuExecSeg4 st op

/-- `CPU._exec`, continued: the chain of `elif` branches from opcode `0x08` through `0x0F`.  Together, `cpuExec` and the `cpuExecSeg` functions are the source's single if/elif chain, split into consecutive runs of eight branches. -/
def cpuExecSeg2 (st : GbCPU) (op : Nat) : GbCPU × Nat :=
  if op = 0x08 then
    let p := fetch16 st
    let st2 := { p.2 with mmu := mmuWrite p.2.mmu p.1 (p.2.sp &&& 0xFF) }
    let st3 := { st2 with mmu := mmuWrite st2.mmu (p.1 + 1) ((st2.sp >>> 8) &&& 0xFF) }
    (st3, 20)
  else if op = 0x09 then (addHl st (bc st), 8)
  else if op = 0x0A then ({ st with a := mmuRead st.mmu (bc st) }, 8)
  else if op = 0x0B then (setBc st ((bc st + 0xFFFF) &&& 0xFFFF), 8)
  else if op = 0x0C then
    let p := cpuInc st st.c
    ({ p.1 with c := p.2 }, 4)
  else if op = 0x0D then
    let p := cpuDec st st.c
    ({ p.1 with c := p.2 }, 4)
  else if op = 0x0E then
    let p := fetch st
    ({ p.2 with c := p.1 }, 8)
  else if op = 0x0F then
    let cv := st.a &&& 1
    let st1 := { st with a := ((st.a >>> 1) ||| (cv <<< 7)) &&& 0xFF }
    (setCf (setHf (setNf (setZf st1 false) false) false) (cv != 0), 4)
  else cpuExecSeg3 st op

/-- `CPU._exec`: the primary opcode page, returning the new state and the
instruction's T-state cost.  Mirrors the source's if/elif chain opcode by
opcode; the chain is split into runs of eight branches (`cpuExec` holding
the first eight and each `cpuExecSeg` the next), whose concatenation is
exactly the source's chain with the final fall-through `(st, 4)`.
Decrements such as `(x - 1) & 0xFFFF` (taken over ℤ in Python) are
embedded as `(x + 0xFFFF) &&& 0xFFFF`; in `ADD SP, e` / `LD HL, SP+e`,
`n & 0x0F` and `n & 0xFF` of the sign-extended offset `n` equal
`off &&& 0x0F` / `off &&& 0xFF` of the raw byte, which is what is
written here. -/
def cpuExec (st : GbCPU) (op : Nat) : GbCPU × Nat :=
  if op = 0x00 then (st, 4)
  else if op = 0x01 then
    let p := fetch16 st
    (setBc p.2 p.1, 12)
  else if op = 0x02 then ({ st with mmu := mmuWrite st.mmu (bc st) st.a }, 8)
  else if op = 0x03 then (setBc st ((bc st + 1) &&& 0xFFFF), 8)
  else if op = 0x04 then
    let p := cpuInc st st.b
    ({ p.1 with b := p.2 }, 4)
  else if op = 0x05 then
    let p := cpuDec st st.b
    ({ p.1 with b := p.2 }, 4)
  else if op = 0x06 then
    let p := fetch st
    ({ p.2 with b := p.1 }, 8)
  else if op = 0x07 then
    let cv := (st.a >>> 7) &&& 1
    let st1 := { st with a := ((st.a <<< 1) ||| cv) &&& 0xFF }
    (setCf (setHf (setNf (setZf st1 false) false) false) (cv != 0), 4)
  else cpuExecSeg2 st op

/-- `CPU.step`: when halted, report 4 cycles and do nothing; otherwise
fetch and execute one opcode. -/
def cpuStep (st : GbCPU) : GbCPU × Nat :=
  if st.halted then (st, 4)
  else
    let p := fetch st
    cpuExec p.2 p.1

/-- A halted CPU whose interrupt request and enable registers are both
`0x01`, so `IF & IE ≠ 0`. -/
def c3state : GbCPU :=
  { cpuReset (mmuWrite (mmuWrite mmuReset 0xFF0F 0x01) 0xFFFF 0x01) with
    halted := true }

end GB

@[simp] theorem upd_same (g : Nat → Nat) (i v : Nat) : upd g i v i = v := by
  simp [upd]

@[simp] theorem upd_other (g : Nat → Nat) (i v j : Nat) (h : j ≠ i) :
    upd g i v j = g j := by
  simp [upd, h]

namespace Chip8

theorem foldl_drawStep_fst (l : List Nat) (g : Nat → Nat) (v : Nat) :
    (l.foldl drawStep (g, v)).1 = l.foldl tog g := by
  induction l generalizing g v with
  | nil => rfl
  | cons i l ih => simpa [drawStep, tog] using ih (upd g i (g i ^^^ 1)) _

theorem tog_tog_self (g : Nat → Nat) (i : Nat) : tog (tog g i) i = g := by
  funext j
  by_cases h : j = i
  · subst h
    simp [tog, Nat.xor_assoc]
  · simp [tog, h]

theorem tog_comm (g : Nat → Nat) (i j : Nat) :
    tog (tog g i) j = tog (tog g j) i := by
  by_cases hij : i = j
  · subst hij; rfl
  · funext k
    by_cases hki : k = i <;> by_cases hkj : k = j <;>
      simp_all [tog, upd]

theorem foldl_tog_out (l : List Nat) (g : Nat → Nat) (i : Nat) :
    l.foldl tog (tog g i) = tog (l.foldl tog g) i := by
  induction l generalizing g with
  | nil => rfl
  | cons a l ih =>
    simp only [List.foldl_cons]
    rw [tog_comm, ih]

theorem foldl_tog_invol (l : List Nat) (g : Nat → Nat) :
    l.foldl tog (l.foldl tog g) = g := by
  induction l generalizing g with
  | nil => rfl
  | cons i l ih =>
    simp only [List.foldl_cons]
    rw [← foldl_tog_out, tog_tog_self, ih]

theorem mem_rowPixels {mem : Nat → Nat} {i vx vy row idx : Nat} :
    idx ∈ rowPixels mem i vx vy row ↔
      ∃ bit, bit < 8 ∧ mem ((i + row) &&& 0xFFF) &&& (0x80 >>> bit) ≠ 0 ∧
        idx = drawIdx vx vy row bit := by
  simp only [rowPixels, List.mem_map, List.mem_filter, List.mem_range,
    bne_iff_ne, ne_eq]
  constructor
  · rintro ⟨bit, ⟨hb, hne⟩, rfl⟩
    exact ⟨bit, hb, hne, rfl⟩
  · rintro ⟨bit, hb, hne, rfl⟩
    exact ⟨bit, ⟨hb, hne⟩, rfl⟩

theorem mem_drawList {mem : Nat → Nat} {i vx vy n idx : Nat} :
    idx ∈ drawList mem i vx vy n ↔
      ∃ row, row < n ∧ ∃ bit, bit < 8 ∧
        mem ((i + row) &&& 0xFFF) &&& (0x80 >>> bit) ≠ 0 ∧
        idx = drawIdx vx vy row bit := by
  simp only [drawList, List.mem_flatMap, List.mem_range]
  constructor
  · rintro ⟨row, hrow, hmem⟩
    exact ⟨row, hrow, mem_rowPixels.1 hmem⟩
  · rintro ⟨row, hrow, hbit⟩
    exact ⟨row, hrow, mem_rowPixels.2 hbit⟩

theorem drawIdx_inj {vx vy r1 b1 r2 b2 : Nat}
    (hr1 : r1 < 32) (hr2 : r2 < 32) (hb1 : b1 < 8) (hb2 : b2 < 8)
    (h : drawIdx vx vy r1 b1 = drawIdx vx vy r2 b2) : r1 = r2 ∧ b1 = b2 := by
  unfold drawIdx at h
  omega

theorem drawList_nodup {mem : Nat → Nat} {i vx vy n : Nat} (hn : n ≤ 32) :
    (drawList mem i vx vy n).Nodup := by
  unfold drawList
  rw [List.nodup_flatMap]
  refine ⟨fun row hrow => ?_, ?_⟩
  · rw [List.mem_range] at hrow
    refine List.Nodup.map_on ?_ (List.Nodup.filter _ (List.nodup_range _))
    intro b1 h1 b2 h2 heq
    rw [List.mem_filter, List.mem_range] at h1 h2
    exact (drawIdx_inj (by omega) (by omega) h1.1 h2.1 heq).2
  · rw [List.pairwise_iff_getElem]
    intro a b ha hb hab
    simp only [List.length_range] at ha hb
    simp only [List.getElem_range]
    intro idx h1 h2
    obtain ⟨b1, hb1, -, rfl⟩ := mem_rowPixels.1 h1
    obtain ⟨b2, hb2, -, heq⟩ := mem_rowPixels.1 h2
    have := drawIdx_inj (by omega) (by omega) hb1 hb2 heq
    omega

theorem foldl_drawStep_nodup (l : List Nat) (hl : l.Nodup) (g : Nat → Nat)
    (v : Nat) :
    l.foldl drawStep (g, v) =
      (fun idx => if idx ∈ l then g idx ^^^ 1 else g idx,
       if ∃ j, j ∈ l ∧ g j = 1 then 1 else v) := by
  induction l generalizing g v with
  | nil => simp
  | cons i l ih =>
    obtain ⟨hi, hl'⟩ := List.nodup_cons.1 hl
    rw [List.foldl_cons]
    show l.foldl drawStep (tog g i, if g i = 1 then 1 else v) = _
    rw [ih hl']
    have hex : (∃ j, j ∈ l ∧ tog g i j = 1) ↔ ∃ j, j ∈ l ∧ g j = 1 := by
      constructor <;> rintro ⟨j, hj, hj1⟩ <;>
        exact ⟨j, hj, by
          have : j ≠ i := fun hji => hi (hji ▸ hj)
          simpa [tog, upd, this] using hj1⟩
    refine Prod.ext ?_ ?_
    · funext idx
      by_cases hxi : idx = i
      · subst hxi
        have : idx ∉ l := hi
        simp [this, tog, upd]
      · by_cases hxl : idx ∈ l <;> simp [hxi, hxl, tog, upd]
    · simp only [hex]
      by_cases hgi : g i = 1 <;>
        by_cases hl1 : ∃ j, j ∈ l ∧ g j = 1 <;>
          simp [hgi, hl1, List.mem_cons]

end Chip8

/-- C1 (counterexample): the claim says sprite columns that would fall past
the right edge are *skipped*.  Drawing the one-row sprite `0xFF` at
`(x, y) = (62, 0)` on a dark display, the source's `_draw` lights cell
`(0, 0)` — column `62 + 2` *wraps* to `x = 0` — whereas the clipping draw
described by the spec leaves it dark.  So the claim as stated is false. -/
theorem claim_C1_counterexample :
    (Chip8.draw Chip8.memFF 0 62 0 1 Chip8.gfx0).1 0 = 1 ∧
    (Chip8.drawClipped Chip8.memFF 0 62 0 1 Chip8.gfx0).1 0 = 0 ∧
    (Chip8.draw Chip8.memFF 0 62 0 1 Chip8.gfx0).1 0 ≠
      (Chip8.drawClipped Chip8.memFF 0 62 0 1 Chip8.gfx0).1 0 := by
  refine ⟨by decide, by decide, by decide⟩

/-- C1 (amended): for every CHIP-8 `DRW` (`DXYN`, so `n < 16`), the starting
coordinates are reduced modulo the display width/height, the iteration
*wraps* modulo the display size (rows/columns past the right/bottom edge
are drawn at the wrapped position, not skipped), no cell is written twice,
and `V[0xF]` is set to 1 if any set pixel becomes unset and to 0 otherwise:

* the touched cells are exactly `((vx % 64 + bit) % 64, (vy % 32 + row) % 32)`
  for the set sprite bits (conjuncts 1 and 4);
* they are pairwise distinct (conjunct 2);
* every touched cell is XOR-toggled exactly once and the rest of the
  framebuffer is untouched (conjunct 1);
* `V[0xF] = 1` exactly when some touched cell was lit (conjunct 3). -/
theorem claim_C1 (mem : Nat → Nat) (i vx vy n : Nat) (gfx : Nat → Nat)
    (hn : n < 16) :
    (∀ idx, (Chip8.draw mem i vx vy n gfx).1 idx =
      if idx ∈ Chip8.drawList mem i vx vy n then gfx idx ^^^ 1 else gfx idx) ∧
    (Chip8.drawList mem i vx vy n).Nodup ∧
    ((Chip8.draw mem i vx vy n gfx).2 =
      if ∃ j, j ∈ Chip8.drawList mem i vx vy n ∧ gfx j = 1 then 1 else 0) ∧
    (∀ idx, idx ∈ Chip8.drawList mem i vx vy n ↔
      ∃ row, row < n ∧ ∃ bit, bit < 8 ∧
        mem ((i + row) &&& 0xFFF) &&& (0x80 >>> bit) ≠ 0 ∧
        idx = ((vx % 64 + bit) % 64) + ((vy % 32 + row) % 32) * 64) := by
  have hnd : (Chip8.drawList mem i vx vy n).Nodup :=
    Chip8.drawList_nodup (by omega)
  have hfold := Chip8.foldl_drawStep_nodup _ hnd gfx 0
  refine ⟨fun idx => ?_, hnd, ?_, fun idx => Chip8.mem_drawList⟩
  · unfold Chip8.draw
    rw [hfold]
  · unfold Chip8.draw
    rw [hfold]

/-- C1 (witness): the amended theorem instantiated at the concrete draw of
the counterexample (sprite `0xFF`, one row, at `(62, 0)`). -/
theorem claim_C1_witness :
    1 < 16 ∧
    ((Chip8.draw Chip8.memFF 0 62 0 1 Chip8.gfx0).1 0 =
      if 0 ∈ Chip8.drawList Chip8.memFF 0 62 0 1 then
        Chip8.gfx0 0 ^^^ 1 else Chip8.gfx0 0) :=
  ⟨by decide, (claim_C1 Chip8.memFF 0 62 0 1 Chip8.gfx0 (by decide)).1 0⟩

/-- C8: clearing the display twice (`_cls`) leaves the framebuffer exactly
as clearing it once does, and XOR-drawing the same sprite at the same
coordinates twice (`_draw` with the same memory, `I`, coordinates and
height) restores the original framebuffer. -/
theorem claim_C8 :
    (∀ g, Chip8.cls (Chip8.cls g) = Chip8.cls g) ∧
    (∀ (mem : Nat → Nat) (i vx vy n : Nat) (g : Nat → Nat),
      (Chip8.draw mem i vx vy n (Chip8.draw mem i vx vy n g).1).1 = g) := by
  constructor
  · intro g
    have hz : Chip8.anyPixel (fun _ => 0) = false := by
      simp [Chip8.anyPixel]
    by_cases h : Chip8.anyPixel g <;> simp [Chip8.cls, h, hz]
  · intro mem i vx vy n g
    unfold Chip8.draw
    rw [Chip8.foldl_drawStep_fst, Chip8.foldl_drawStep_fst,
      Chip8.foldl_tog_invol]

namespace GB

theorem and_65535 (a : Nat) : a &&& 65535 = a % 65536 := by
  simpa using Nat.and_pow_two_sub_one_eq_mod a 16

theorem and_255 (a : Nat) : a &&& 255 = a % 256 := by
  simpa using Nat.and_pow_two_sub_one_eq_mod a 8

theorem and_31 (a : Nat) : a &&& 31 = a % 32 := by
  simpa using Nat.and_pow_two_sub_one_eq_mod a 5

theorem and_15 (a : Nat) : a &&& 15 = a % 16 := by
  simpa using Nat.and_pow_two_sub_one_eq_mod a 4

@[simp] theorem foldl_dmaStep_romBank (l : List Nat) (src : Nat) (m : GbMMU) :
    (l.foldl (dmaStep src) m).romBank = m.romBank := by
  induction l generalizing m with
  | nil => rfl
  | cons i l ih => simpa [dmaStep] using ih _

@[simp] theorem foldl_dmaStep_romBanks (l : List Nat) (src : Nat) (m : GbMMU) :
    (l.foldl (dmaStep src) m).romBanks = m.romBanks := by
  induction l generalizing m with
  | nil => rfl
  | cons i l ih => simpa [dmaStep] using ih _

/-- How a write drives the `rom_bank` selector: only `[0x2000, 0x4000)`
writes change it, to `val & 0x1F` with zero remapped to one. -/
theorem mmuWrite_romBank (m : GbMMU) (addr val : Nat) :
    (mmuWrite m addr val).romBank =
      if 0x2000 ≤ addr % 0x10000 ∧ addr % 0x10000 < 0x4000 then
        (if val % 256 % 32 = 0 then 1 else val % 256 % 32)
      else m.romBank := by
  unfold mmuWrite
  simp only [and_65535, and_255, and_31]
  generalize hM : List.foldl (dmaStep (val % 256 <<< 8)) m (List.range 0xA0) = M
  rcases Nat.lt_or_ge (addr % 65536) 0x2000 with h1 | h1
  · rw [if_pos h1, if_neg (by omega : ¬(8192 ≤ addr % 65536 ∧ addr % 65536 < 16384))]
  · rcases Nat.lt_or_ge (addr % 65536) 0x4000 with h2 | h2
    · rw [if_neg (by omega : ¬(addr % 65536 < 8192)), if_pos h2,
        if_pos (show 8192 ≤ addr % 65536 ∧ addr % 65536 < 16384 from ⟨h1, h2⟩)]
    · rw [if_neg (by omega : ¬(addr % 65536 < 8192)),
        if_neg (by omega : ¬(addr % 65536 < 16384)),
        if_neg (by omega : ¬(8192 ≤ addr % 65536 ∧ addr % 65536 < 16384))]
      rcases Nat.lt_or_ge (addr % 65536) 0x8000 with h3 | h3
      · rw [if_pos h3]
      · rw [if_neg (by omega : ¬(addr % 65536 < 32768))]
        rcases Nat.lt_or_ge (addr % 65536) 0xA000 with h4 | h4
        · rw [if_pos h4]
        · rw [if_neg (by omega : ¬(addr % 65536 < 40960))]
          rcases Nat.lt_or_ge (addr % 65536) 0xC000 with h5 | h5
          · rw [if_pos h5]
            by_cases hre : m.ramEnabled <;> simp [hre]
          · rw [if_neg (by omega : ¬(addr % 65536 < 49152))]
            rcases Nat.lt_or_ge (addr % 65536) 0xE000 with h6 | h6
            · rw [if_pos h6]
            · rw [if_neg (by omega : ¬(addr % 65536 < 57344))]
              rcases Nat.lt_or_ge (addr % 65536) 0xFE00 with h7 | h7
              · rw [if_pos h7]
              · rw [if_neg (by omega : ¬(addr % 65536 < 65024))]
                rcases Nat.lt_or_ge (addr % 65536) 0xFEA0 with h8 | h8
                · rw [if_pos h8]
                · rw [if_neg (by omega : ¬(addr % 65536 < 65184))]
                  rcases Nat.lt_or_ge (addr % 65536) 0xFF00 with h9 | h9
                  · rw [if_pos h9]
                  · rw [if_neg (by omega : ¬(addr % 65536 < 65280))]
                    rcases Nat.lt_or_ge (addr % 65536) 0xFF80 with h10 | h10
                    · rw [if_pos h10]
                      by_cases hdma : addr % 65536 = 0xFF46
                      · rw [if_pos hdma]
                        simp only [← hM, foldl_dmaStep_romBank]
                      · rw [if_neg hdma]
                    · rw [if_neg (by omega : ¬(addr % 65536 < 65408))]
                      rcases Nat.lt_or_ge (addr % 65536) 0xFFFF with h11 | h11
                      · rw [if_pos h11]
                      · rw [if_neg (by omega : ¬(addr % 65536 < 65535))]

/-- No write changes the captured bank list. -/
theorem mmuWrite_romBanks (m : GbMMU) (addr val : Nat) :
    (mmuWrite m addr val).romBanks = m.romBanks := by
  unfold mmuWrite
  simp only [and_65535, and_255, and_31]
  generalize hM : List.foldl (dmaStep (val % 256 <<< 8)) m (List.range 0xA0) = M
  rcases Nat.lt_or_ge (addr % 65536) 0x2000 with h1 | h1
  · rw [if_pos h1]
  · rcases Nat.lt_or_ge (addr % 65536) 0x4000 with h2 | h2
    · rw [if_neg (by omega : ¬(addr % 65536 < 8192)), if_pos h2]
    · rw [if_neg (by omega : ¬(addr % 65536 < 8192)),
        if_neg (by omega : ¬(addr % 65536 < 16384))]
      rcases Nat.lt_or_ge (addr % 65536) 0x8000 with h3 | h3
      · rw [if_pos h3]
      · rw [if_neg (by omega : ¬(addr % 65536 < 32768))]
        rcases Nat.lt_or_ge (addr % 65536) 0xA000 with h4 | h4
        · rw [if_pos h4]
        · rw [if_neg (by omega : ¬(addr % 65536 < 40960))]
          rcases Nat.lt_or_ge (addr % 65536) 0xC000 with h5 | h5
          · rw [if_pos h5]
            by_cases hre : m.ramEnabled <;> simp [hre]
          · rw [if_neg (by omega : ¬(addr % 65536 < 49152))]
            rcases Nat.lt_or_ge (addr % 65536) 0xE000 with h6 | h6
            · rw [if_pos h6]
            · rw [if_neg (by omega : ¬(addr % 65536 < 57344))]
              rcases Nat.lt_or_ge (addr % 65536) 0xFE00 with h7 | h7
              · rw [if_pos h7]
              · rw [if_neg (by omega : ¬(addr % 65536 < 65024))]
                rcases Nat.lt_or_ge (addr % 65536) 0xFEA0 with h8 | h8
                · rw [if_pos h8]
                · rw [if_neg (by omega : ¬(addr % 65536 < 65184))]
                  rcases Nat.lt_or_ge (addr % 65536) 0xFF00 with h9 | h9
                  · rw [if_pos h9]
                  · rw [if_neg (by omega : ¬(addr % 65536 < 65280))]
                    rcases Nat.lt_or_ge (addr % 65536) 0xFF80 with h10 | h10
                    · rw [if_pos h10]
                      by_cases hdma : addr % 65536 = 0xFF46
                      · rw [if_pos hdma]
                        simp only [← hM, foldl_dmaStep_romBanks]
                      · rw [if_neg hdma]
                    · rw [if_neg (by omega : ¬(addr % 65536 < 65408))]
                      rcases Nat.lt_or_ge (addr % 65536) 0xFFFF with h11 | h11
                      · rw [if_pos h11]
                      · rw [if_neg (by omega : ¬(addr % 65536 < 65535))]

/-- Number of banks captured by `load_rom` for data beyond 32 KiB. -/
theorem mmuLoadRom_banks_length (data : List Nat) (h : 0x8000 < data.length) :
    (mmuLoadRom data).1.romBanks.length = data.length / 0x4000 := by
  simp only [mmuLoadRom]
  rw [if_pos h]
  simp

/-- The bank captured at index `b`: the 16 KiB slice
`data[b*0x4000 : (b+1)*0x4000]`. -/
theorem mmuLoadRom_bank (data : List Nat) (b : Nat) (h : 0x8000 < data.length)
    (hb : b < data.length / 0x4000) :
    (mmuLoadRom data).1.romBanks.getD b (fun _ => 0) =
      fun i => if i < 0x4000 then data.getD (b * 0x4000 + i) 0 else 0 := by
  simp only [mmuLoadRom]
  rw [if_pos h, List.getD_eq_getElem?_getD,
    List.getElem?_eq_getElem (by simpa using hb)]
  simp

/-- The reset MMU is byte-valued. -/
theorem mmuReset_wf : mmuWF mmuReset := by
  refine ⟨fun i => by simp [mmuReset], fun bk hbk => ?_,
    fun i => by simp [mmuReset], fun i => by simp [mmuReset],
    fun i => by simp [mmuReset], fun i => by simp [mmuReset],
    fun i => ?_, fun i => by simp [mmuReset], by simp [mmuReset]⟩
  · exact absurd hbk (List.not_mem_nil _)
  · unfold mmuReset upd
    dsimp only
    split_ifs <;> decide

/-- The bank fetched by a guarded switchable-region read is one of the
captured banks. -/
theorem getD_mem_romBanks (m : GbMMU) (h : m.romBank < m.romBanks.length) :
    m.romBanks.getD m.romBank (fun _ => 0) ∈ m.romBanks := by
  rw [List.getD_eq_getElem?_getD, List.getElem?_eq_getElem h]
  exact List.getElem_mem _

/-- Every bound check of the Python-level read succeeds: `MMU.read` never
raises `IndexError`, whatever the MMU contents. -/
theorem mmuReadChecked_eq (m : GbMMU) (addr : Nat) :
    mmuReadChecked m addr = some (mmuRead m addr) := by
  unfold mmuRead mmuReadChecked
  simp only [and_65535]
  rcases Nat.lt_or_ge (addr % 65536) 0x4000 with h1 | h1
  · rw [if_pos h1, if_pos h1, if_pos (by omega : addr % 65536 < 0x8000)]
  · rw [if_neg (by omega : ¬(addr % 65536 < 16384)),
      if_neg (by omega : ¬(addr % 65536 < 16384))]
    rcases Nat.lt_or_ge (addr % 65536) 0x8000 with h2 | h2
    · rw [if_pos h2, if_pos h2, if_pos h2]
      by_cases hg : 0 < m.romBanks.length ∧ m.romBank < m.romBanks.length
      · rw [if_pos hg, if_pos hg, if_pos (by omega : addr % 65536 - 16384 < 16384)]
      · rw [if_neg hg, if_neg hg]
    · rw [if_neg (by omega : ¬(addr % 65536 < 32768)),
        if_neg (by omega : ¬(addr % 65536 < 32768))]
      rcases Nat.lt_or_ge (addr % 65536) 0xA000 with h3 | h3
      · rw [if_pos h3, if_pos h3, if_pos (by omega : addr % 65536 - 32768 < 8192)]
      · rw [if_neg (by omega : ¬(addr % 65536 < 40960)),
          if_neg (by omega : ¬(addr % 65536 < 40960))]
        rcases Nat.lt_or_ge (addr % 65536) 0xC000 with h4 | h4
        · rw [if_pos h4, if_pos h4]
          by_cases hre : m.ramEnabled
          · rw [if_pos hre, if_pos hre,
              if_pos (by omega : addr % 65536 - 40960 < 8192)]
          · rw [if_neg hre, if_neg hre]
        · rw [if_neg (by omega : ¬(addr % 65536 < 49152)),
            if_neg (by omega : ¬(addr % 65536 < 49152))]
          rcases Nat.lt_or_ge (addr % 65536) 0xE000 with h5 | h5
          · rw [if_pos h5, if_pos h5,
              if_pos (by omega : addr % 65536 - 49152 < 8192)]
          · rw [if_neg (by omega : ¬(addr % 65536 < 57344)),
              if_neg (by omega : ¬(addr % 65536 < 57344))]
            rcases Nat.lt_or_ge (addr % 65536) 0xFE00 with h6 | h6
            · rw [if_pos h6, if_pos h6,
                if_pos (by omega : addr % 65536 - 57344 < 8192)]
            · rw [if_neg (by omega : ¬(addr % 65536 < 65024)),
                if_neg (by omega : ¬(addr % 65536 < 65024))]
              rcases Nat.lt_or_ge (addr % 65536) 0xFEA0 with h7 | h7
              · rw [if_pos h7, if_pos h7,
                  if_pos (by omega : addr % 65536 - 65024 < 160)]
              · rw [if_neg (by omega : ¬(addr % 65536 < 65184)),
                  if_neg (by omega : ¬(addr % 65536 < 65184))]
                rcases Nat.lt_or_ge (addr % 65536) 0xFF00 with h8 | h8
                · rw [if_pos h8, if_pos h8]
                · rw [if_neg (by omega : ¬(addr % 65536 < 65280)),
                    if_neg (by omega : ¬(addr % 65536 < 65280))]
                  rcases Nat.lt_or_ge (addr % 65536) 0xFF80 with h9 | h9
                  · rw [if_pos h9, if_pos h9,
                      if_pos (by omega : addr % 65536 - 65280 < 128)]
                  · rw [if_neg (by omega : ¬(addr % 65536 < 65408)),
                      if_neg (by omega : ¬(addr % 65536 < 65408))]
                    rcases Nat.lt_or_ge (addr % 65536) 0xFFFF with h10 | h10
                    · rw [if_pos h10, if_pos h10,
                        if_pos (by omega : addr % 65536 - 65408 < 127)]
                    · rw [if_neg (by omega : ¬(addr % 65536 < 65535)),
                        if_neg (by omega : ¬(addr % 65536 < 65535))]

end GB

/-- C10: a Game Boy MMU write with (16-bit) address below `0x8000` changes
no stored memory byte — `rom`, `rom_banks`, `vram`, `eram`, `wram`, `oam`,
`io`, `hram` and `ie` are untouched; only the `ram_enabled` latch (for
addresses below `0x2000`) or the `rom_bank` selector (for addresses in
`[0x2000, 0x4000)`) may change. -/
theorem claim_C10 (m : GB.GbMMU) (addr val : Nat) (h : addr < 0x8000) :
    (GB.mmuWrite m addr val).rom = m.rom ∧
    (GB.mmuWrite m addr val).romBanks = m.romBanks ∧
    (GB.mmuWrite m addr val).vram = m.vram ∧
    (GB.mmuWrite m addr val).eram = m.eram ∧
    (GB.mmuWrite m addr val).wram = m.wram ∧
    (GB.mmuWrite m addr val).oam = m.oam ∧
    (GB.mmuWrite m addr val).io = m.io ∧
    (GB.mmuWrite m addr val).hram = m.hram ∧
    (GB.mmuWrite m addr val).ie = m.ie ∧
    (0x2000 ≤ addr → (GB.mmuWrite m addr val).ramEnabled = m.ramEnabled) ∧
    (addr < 0x2000 ∨ 0x4000 ≤ addr →
      (GB.mmuWrite m addr val).romBank = m.romBank) := by
  have haddr : addr &&& 65535 = addr := by
    rw [GB.and_65535]
    omega
  unfold GB.mmuWrite
  simp only [haddr]
  split_ifs <;>
    first
      | (exfalso; omega)
      | exact ⟨rfl, rfl, rfl, rfl, rfl, rfl, rfl, rfl, rfl,
          fun _ => rfl, fun _ => rfl⟩
      | exact ⟨rfl, rfl, rfl, rfl, rfl, rfl, rfl, rfl, rfl,
          fun hc => absurd hc (by omega), fun _ => rfl⟩
      | exact ⟨rfl, rfl, rfl, rfl, rfl, rfl, rfl, rfl, rfl, fun _ => rfl,
          fun hc => by exfalso; rcases hc with hc | hc <;> omega⟩

/-- C10 (witness): the frame condition instantiated at a bank-select write
on the reset MMU. -/
theorem claim_C10_witness :
    0x2000 < 0x8000 ∧ (GB.mmuWrite GB.mmuReset 0x2000 5).rom = GB.mmuReset.rom :=
  ⟨by decide, (claim_C10 GB.mmuReset 0x2000 5 (by decide)).1⟩

/-- C6 (counterexample): the claim says a CPU write to `0xFF00` keeps only
bits 5 and 4 of the written value and recomputes the low nibble from the
host latch.  On the reset MMU (no button pressed, latch unchanged), two
writes that agree on bits 5 and 4 but differ in the low nibble would then
have to store the same register — yet the source stores the full written
byte, so `0x01` and `0x02` produce different stored registers. -/
theorem claim_C6_counterexample :
    (GB.mmuWrite GB.mmuReset 0xFF00 0x01).io 0 = 0x01 ∧
    (GB.mmuWrite GB.mmuReset 0xFF00 0x02).io 0 = 0x02 ∧
    (GB.mmuWrite GB.mmuReset 0xFF00 0x01).io 0 ≠
      (GB.mmuWrite GB.mmuReset 0xFF00 0x02).io 0 := by
  refine ⟨by decide, by decide, by decide⟩

/-- C6 (amended): an MMU write to the joypad register `0xFF00` stores the
entire written byte (masked to 8 bits) into `io[0x00]`; no bit of the
written value is dropped and the low nibble is not recomputed — the
latch-driven recomputation happens only in `GameBoy.set_button`, when a
host button changes. -/
theorem claim_C6 (m : GB.GbMMU) (val : Nat) :
    (GB.mmuWrite m 0xFF00 val).io 0 = val &&& 0xFF := by
  unfold GB.mmuWrite
  have e : (65280 : Nat) &&& 65535 = 65280 := by decide
  simp [e]

/-- C4 (counterexample): load a 48 KiB ROM (three 16 KiB banks, so banks
beyond the first 32 KiB exist) and write `0x1F` to the bank-select range.
The source sets `rom_bank = 0x1F = 31`, which exceeds
`len(rom_banks) = 3`, so the claimed invariant
`1 ≤ rom_bank ≤ len(rom_banks)` is violated. -/
theorem claim_C4_counterexample :
    (GB.mmuWrite (GB.mmuLoadRom GB.c4data).1 0x2000 0x1F).romBanks.length = 3 ∧
    (GB.mmuWrite (GB.mmuLoadRom GB.c4data).1 0x2000 0x1F).romBank = 31 ∧
    ¬((GB.mmuWrite (GB.mmuLoadRom GB.c4data).1 0x2000 0x1F).romBank ≤
        (GB.mmuWrite (GB.mmuLoadRom GB.c4data).1 0x2000 0x1F).romBanks.length) := by
  have hdl : GB.c4data.length = 49152 := by
    unfold GB.c4data
    rw [List.length_replicate]
  have hlen : (GB.mmuLoadRom GB.c4data).1.romBanks.length = 3 := by
    unfold GB.mmuLoadRom
    simp only [hdl, List.length_map, List.length_range]
    norm_num
  have hb : (GB.mmuWrite (GB.mmuLoadRom GB.c4data).1 0x2000 0x1F).romBank = 31 := by
    rw [GB.mmuWrite_romBank]
    norm_num
  refine ⟨?_, hb, ?_⟩
  · rw [GB.mmuWrite_romBanks, hlen]
  · rw [hb, GB.mmuWrite_romBanks, hlen]
    omega

/-- C4 (amended): the Game Boy MMU maintains `1 ≤ rom_bank ≤ 31` (the
selector is `val & 0x1F` with zero remapped to one), and writing `0x00`
to `[0x2000, 0x4000)` forces `rom_bank = 1`; but the upper bound
`len(rom_banks)` of the original claim is not maintained by writes — the
MMU instead guards reads, falling back to the fixed ROM when `rom_bank`
is out of range. -/
theorem claim_C4 :
    (∀ data, (GB.mmuLoadRom data).1.romBank = 1) ∧
    (∀ (m : GB.GbMMU) (addr val : Nat), 1 ≤ m.romBank → m.romBank ≤ 31 →
      1 ≤ (GB.mmuWrite m addr val).romBank ∧
        (GB.mmuWrite m addr val).romBank ≤ 31) ∧
    (∀ (m : GB.GbMMU) (addr : Nat),
      0x2000 ≤ addr % 0x10000 → addr % 0x10000 < 0x4000 →
      (GB.mmuWrite m addr 0).romBank = 1) := by
  refine ⟨?_, ?_, ?_⟩
  · intro data
    rfl
  · intro m addr val h1 h2
    rw [GB.mmuWrite_romBank]
    split_ifs <;> omega
  · intro m addr hge hlt
    rw [GB.mmuWrite_romBank, if_pos ⟨hge, hlt⟩]
    norm_num

/-- C4 (witness): the amended invariant applied at a concrete in-range
bank state. -/
theorem claim_C4_witness :
    1 ≤ GB.mmuReset.romBank ∧ GB.mmuReset.romBank ≤ 31 ∧
    1 ≤ (GB.mmuWrite GB.mmuReset 0x2000 7).romBank ∧
    (GB.mmuWrite GB.mmuReset 0x2000 7).romBank ≤ 31 :=
  ⟨by decide, by decide,
    (claim_C4.2.1 GB.mmuReset 0x2000 7 (by decide) (by decide)).1,
    (claim_C4.2.1 GB.mmuReset 0x2000 7 (by decide) (by decide)).2⟩

/-- C5 (counterexample): the claim says Game Boy ROM loading fails for any
input shorter than 32 KiB; but `MMU.load_rom` performs no size or header
check and returns `True` even for the empty input. -/
theorem claim_C5_counterexample :
    (GB.mmuLoadRom []).2 = true ∧ ([] : List Nat).length < 0x8000 :=
  ⟨rfl, by decide⟩

/-- C5 (amended): Game Boy ROM loading never fails — `MMU.load_rom`
accepts data of any size and returns `True`, zero-padding images shorter
than 32 KiB.  The first 32 KiB are mapped directly into `rom`; when the
data exceeds 32 KiB, every 16 KiB slice is captured as a bank
(`len(data) // 0x4000` of them) and the switchable region
`[0x4000, 0x8000)` serves bank `b` (selected via the bank-select latch,
indexed from 1 upward) as `data[b*0x4000 + i]`. -/
theorem claim_C5 (data : List Nat) :
    (GB.mmuLoadRom data).2 = true ∧
    (∀ i, i < min data.length 0x8000 →
      (GB.mmuLoadRom data).1.rom i = data.getD i 0) ∧
    (data.length ≤ 0x8000 → (GB.mmuLoadRom data).1.romBanks = []) ∧
    (0x8000 < data.length →
      (GB.mmuLoadRom data).1.romBanks.length = data.length / 0x4000) ∧
    (∀ b i, 0x8000 < data.length → 1 ≤ b → b ≤ 31 →
      b < data.length / 0x4000 → i < 0x4000 →
      GB.mmuRead (GB.mmuWrite (GB.mmuLoadRom data).1 0x2000 b) (0x4000 + i) =
        data.getD (b * 0x4000 + i) 0) := by
  refine ⟨rfl, ?_, ?_, fun h => GB.mmuLoadRom_banks_length data h, ?_⟩
  · intro i hi
    simp only [GB.mmuLoadRom]
    rw [if_pos hi]
  · intro h
    simp only [GB.mmuLoadRom]
    rw [if_neg (by omega)]
  · intro b i hlen hb1 hb31 hblt hi
    have hbanks := GB.mmuWrite_romBanks (GB.mmuLoadRom data).1 0x2000 b
    have hbank : (GB.mmuWrite (GB.mmuLoadRom data).1 0x2000 b).romBank = b := by
      rw [GB.mmuWrite_romBank,
        if_pos (by norm_num : (0x2000 : Nat) ≤ 0x2000 % 0x10000 ∧
          0x2000 % 0x10000 < 0x4000)]
      have hred : b % 256 % 32 = b := by omega
      rw [hred, if_neg (by omega)]
    have hlen2 : (GB.mmuWrite (GB.mmuLoadRom data).1 0x2000 b).romBanks.length =
        data.length / 0x4000 := by
      rw [hbanks, GB.mmuLoadRom_banks_length data hlen]
    unfold GB.mmuRead
    rw [GB.and_65535, Nat.mod_eq_of_lt (by omega),
      if_neg (by omega : ¬(0x4000 + i < 0x4000)),
      if_pos (by omega : 0x4000 + i < 0x8000),
      if_pos (⟨by omega, by rw [hbank, hlen2]; omega⟩ :
        0 < (GB.mmuWrite (GB.mmuLoadRom data).1 0x2000 b).romBanks.length ∧
        (GB.mmuWrite (GB.mmuLoadRom data).1 0x2000 b).romBank <
          (GB.mmuWrite (GB.mmuLoadRom data).1 0x2000 b).romBanks.length)]
    rw [hbank, hbanks, GB.mmuLoadRom_bank data b hlen hblt]
    have harg : 0x4000 + i - 0x4000 = i := by omega
    show (if 0x4000 + i - 0x4000 < 0x4000 then
      data.getD (b * 0x4000 + (0x4000 + i - 0x4000)) 0 else 0) = _
    rw [harg, if_pos hi]

/-- C5 (witness): the amended load behaviour at the one-byte image `[7]`. -/
theorem claim_C5_witness :
    0 < min ([7] : List Nat).length 0x8000 ∧
    (GB.mmuLoadRom [7]).1.rom 0 = ([7] : List Nat).getD 0 0 :=
  ⟨by decide, (claim_C5 [7]).2.1 0 (by decide)⟩

set_option maxHeartbeats 2000000 in
/-- C9: on a byte-valued MMU, `MMU.read` is total: the Python-level read
with every list-subscript bound check (`mmuReadChecked`) never faults and
returns a byte.  Moreover the address is masked to 16 bits, the unmapped
hole `0xFEA0`–`0xFEFF` reads as `0xFF`, disabled external RAM reads as
`0xFF`, and when `rom_bank` is not within the loaded banks the
switchable-region read falls back to the fixed 32 KiB ROM. -/
theorem claim_C9 (m : GB.GbMMU) (addr : Nat) (hwf : GB.mmuWF m) :
    GB.mmuReadChecked m addr = some (GB.mmuRead m addr) ∧
    GB.mmuRead m addr ≤ 0xFF ∧
    GB.mmuRead m addr = GB.mmuRead m (addr % 0x10000) ∧
    (0xFEA0 ≤ addr % 0x10000 → addr % 0x10000 < 0xFF00 →
      GB.mmuRead m addr = 0xFF) ∧
    (0xA000 ≤ addr % 0x10000 → addr % 0x10000 < 0xC000 →
      m.ramEnabled = false → GB.mmuRead m addr = 0xFF) ∧
    (0x4000 ≤ addr % 0x10000 → addr % 0x10000 < 0x8000 →
      ¬(0 < m.romBanks.length ∧ m.romBank < m.romBanks.length) →
      GB.mmuRead m addr = m.rom (addr % 0x10000)) := by
  obtain ⟨hrom, hbk, hv, he, hw, ho, hio, hh, hie⟩ := hwf
  refine ⟨GB.mmuReadChecked_eq m addr, ?_, ?_, ?_, ?_, ?_⟩
  · unfold GB.mmuRead
    simp only [GB.and_65535]
    split_ifs with g1 g2 g3 <;>
      first
        | exact hrom _
        | exact hv _
        | exact he _
        | exact hw _
        | exact ho _
        | exact hio _
        | exact hh _
        | exact hie
        | exact Nat.le_refl _
        | exact hbk _ (GB.getD_mem_romBanks m g3.2) _
  · unfold GB.mmuRead
    simp only [GB.and_65535]
    have h2 : addr % 65536 % 65536 = addr % 65536 := by omega
    rw [h2]
  · intro hge hlt
    unfold GB.mmuRead
    simp only [GB.and_65535]
    split_ifs <;> first | rfl | (exfalso; omega)
  · intro hge hlt hre
    unfold GB.mmuRead
    simp only [GB.and_65535]
    split_ifs <;> first | rfl | (exfalso; omega) | simp_all
  · intro hge hlt hng
    unfold GB.mmuRead
    simp only [GB.and_65535]
    split_ifs <;> rfl

/-- C9 (witness): totality instantiated on the reset MMU at address 0. -/
theorem claim_C9_witness :
    GB.mmuReadChecked GB.mmuReset 0 = some (GB.mmuRead GB.mmuReset 0) ∧
    GB.mmuRead GB.mmuReset 0 ≤ 0xFF :=
  ⟨(claim_C9 GB.mmuReset 0 GB.mmuReset_wf).1,
   (claim_C9 GB.mmuReset 0 GB.mmuReset_wf).2.1⟩

/-- C2 (code bug): with `LCDC.4` clear the spec (and real DMG hardware)
places the pattern of signed tile index `i` at `0x9000 + i*16` — e.g.
index byte `0x80` (`i = -128`) at `0x8800`.  The source instead computes
`tile_data + (idx + 128) * 16` with `tile_data = 0x1000` (VRAM-relative
`0x9000`), so index byte `0x80` reads the pattern at absolute `0x9000`,
not `0x8800`; in general the code reads from `0x9800 + i*16`. -/
theorem claim_C2_bug :
    GB.ppuTileAddr 0x1000 true 0x80 = 0x1000 ∧
    0x8000 + GB.ppuTileAddr 0x1000 true 0x80 = 0x9000 ∧
    (0x9000 : Int) + (-128) * 16 = 0x8800 ∧
    0x8000 + GB.ppuTileAddr 0x1000 true 0x80 ≠ (0x9000 : Int) + (-128) * 16 := by
  refine ⟨by decide, by decide, by decide, by decide⟩

namespace GB

theorem or_and15 (a z : Nat) :
    (a ||| z) &&& 15 = (a &&& 15) ||| (z &&& 15) := by
  rw [Nat.and_comm, Nat.and_or_distrib_left, Nat.and_comm 15 a,
    Nat.and_comm 15 z]

/-- `(f & mask) | bits` keeps the low nibble when `mask` covers it and
`bits` avoids it — the shape of each flag setter. -/
theorem maskPreserve (f mask bitv : Nat) (hm : mask &&& 15 = 15)
    (hb : bitv &&& 15 = 0) :
    ((f &&& mask) ||| bitv) &&& 15 = f &&& 15 := by
  rw [or_and15, Nat.and_assoc, hm, hb, Nat.or_zero]

@[simp] theorem setZf_f (st : GbCPU) (v : Bool) :
    (setZf st v).f &&& 15 = st.f &&& 15 :=
  maskPreserve _ _ _ (by decide) (by cases v <;> decide)

@[simp] theorem setNf_f (st : GbCPU) (v : Bool) :
    (setNf st v).f &&& 15 = st.f &&& 15 :=
  maskPreserve _ _ _ (by decide) (by cases v <;> decide)

@[simp] theorem setHf_f (st : GbCPU) (v : Bool) :
    (setHf st v).f &&& 15 = st.f &&& 15 :=
  maskPreserve _ _ _ (by decide) (by cases v <;> decide)

@[simp] theorem setCf_f (st : GbCPU) (v : Bool) :
    (setCf st v).f &&& 15 = st.f &&& 15 :=
  maskPreserve _ _ _ (by decide) (by cases v <;> decide)

@[simp] theorem setAf_f (st : GbCPU) (v : Nat) :
    (setAf st v).f &&& 15 = 0 := by
  show (v &&& 240) &&& 15 = 0
  rw [Nat.and_assoc, (by decide : (240 : Nat) &&& 15 = 0), Nat.and_zero]

@[simp] theorem setBc_f (st : GbCPU) (v : Nat) : (setBc st v).f = st.f := rfl

@[simp] theorem setDe_f (st : GbCPU) (v : Nat) : (setDe st v).f = st.f := rfl

@[simp] theorem setHl_f (st : GbCPU) (v : Nat) : (setHl st v).f = st.f := rfl

@[simp] theorem fetch_f (st : GbCPU) : (fetch st).2.f = st.f := rfl

@[simp] theorem fetch16_f (st : GbCPU) : (fetch16 st).2.f = st.f := rfl

@[simp] theorem cpuPush_f (st : GbCPU) (v : Nat) :
    (cpuPush st v).f = st.f := by
  cases st
  rfl

@[simp] theorem cpuPop_f (st : GbCPU) : (cpuPop st).2.f = st.f := rfl

@[simp] theorem jrRel_f (st : GbCPU) (off : Nat) :
    (jrRel st off).f = st.f := rfl

@[simp] theorem setR_f (st : GbCPU) (r v : Nat) : (setR st r v).f = st.f := by
  unfold setR
  split_ifs <;> rfl

@[simp] theorem cpuInc_f (st : GbCPU) (v : Nat) :
    ((cpuInc st v).1).f &&& 15 = st.f &&& 15 := by
  simp [cpuInc]

@[simp] theorem cpuDec_f (st : GbCPU) (v : Nat) :
    ((cpuDec st v).1).f &&& 15 = st.f &&& 15 := by
  simp [cpuDec]

@[simp] theorem addHl_f (st : GbCPU) (v : Nat) :
    (addHl st v).f &&& 15 = st.f &&& 15 := by
  simp [addHl]

@[simp] theorem cpuAlu_f (st : GbCPU) (aop v : Nat) :
    (cpuAlu st aop v).f &&& 15 = st.f &&& 15 := by
  unfold cpuAlu
  split_ifs <;> simp

@[simp] theorem cpuExecCb_f (st : GbCPU) (op : Nat) :
    ((cpuExecCb st op).1).f &&& 15 = st.f &&& 15 := by
  unfold cpuExecCb
  by_cases h1 : op < 8
  · rw [if_pos h1]; simp
  · rw [if_neg h1]
    by_cases h2 : op < 16
    · rw [if_pos h2]; simp
    · rw [if_neg h2]
      by_cases h3 : op < 24
      · rw [if_pos h3]; simp
      · rw [if_neg h3]
        by_cases h4 : op < 32
        · rw [if_pos h4]; simp
        · rw [if_neg h4]
          by_cases h5 : op < 40
          · rw [if_pos h5]; simp
          · rw [if_neg h5]
            by_cases h6 : op < 48
            · rw [if_pos h6]; simp
            · rw [if_neg h6]
              by_cases h7 : op < 56
              · rw [if_pos h7]; simp
              · rw [if_neg h7]
                by_cases h8 : op < 64
                · rw [if_pos h8]; simp
                · rw [if_neg h8]
                  by_cases h9 : op < 128
                  · rw [if_pos h9]; simp
                  · rw [if_neg h9]
                    by_cases h10 : op < 192
                    · rw [if_pos h10]; simp
                    · rw [if_neg h10]; simp

@[simp] theorem ite_pair_fst (c : Prop) [Decidable c] (x y : GbCPU × Nat) :
    (ite c x y).1 = ite c x.1 y.1 :=
  apply_ite Prod.fst c x y

@[simp] theorem ite_cpu_f (c : Prop) [Decidable c] (x y : GbCPU) :
    (ite c x y).f = ite c x.f y.f :=
  apply_ite GbCPU.f c x y

@[simp] theorem ite_and15 (c : Prop) [Decidable c] (x y : Nat) :
    ite c x y &&& 15 = ite c (x &&& 15) (y &&& 15) :=
  apply_ite (fun n => n &&& 15) c x y

/-- `pc`-only record updates keep `f` (used to step past `RST`/`PUSH`
bodies without letting `simp` collapse projection chains whose kernel
re-check diverges). -/
theorem updPc_f (st : GbCPU) (v : Nat) :
    ({ st with pc := v } : GbCPU).f = st.f := rfl

/-- `sp`-only record updates keep `f`. -/
theorem updSp_f (st : GbCPU) (v : Nat) :
    ({ st with sp := v } : GbCPU).f = st.f := rfl

/-- `mmu`-only record updates keep `f`. -/
theorem updMmu_f (st : GbCPU) (m : GbMMU) :
    ({ st with mmu := m } : GbCPU).f = st.f := rfl

set_option maxHeartbeats 1000000 in
theorem cpuExecSeg15_f (st : GbCPU) (op : Nat) (h : st.f &&& 15 = 0) :
    ((cpuExecSeg15 st op).1).f &&& 15 = 0 := by
  unfold cpuExecSeg15
  by_cases e0 : op = 0xF8
  · rw [if_pos e0]; simp_all
  rw [if_neg e0]
  by_cases e1 : op = 0xF9
  · rw [if_pos e1]; simp_all
  rw [if_neg e1]
  by_cases e2 : op = 0xFA
  · rw [if_pos e2]; simp_all
  rw [if_neg e2]
  by_cases e3 : op = 0xFB
  · rw [if_pos e3]; simp_all
  rw [if_neg e3]
  by_cases e4 : op = 0xFE
  · rw [if_pos e4]; simp_all
  rw [if_neg e4]
  by_cases e5 : op = 0xFF
  · rw [if_pos e5]
    show ({ cpuPush st st.pc with pc := 0x38 } : GbCPU).f &&& 15 = 0
    rw [updPc_f, cpuPush_f]
    exact h
  rw [if_neg e5]
  exact h

set_option maxHeartbeats 1000000 in
theorem cpuExecSeg14_f (st : GbCPU) (op : Nat) (h : st.f &&& 15 = 0) :
    ((cpuExecSeg14 st op).1).f &&& 15 = 0 := by
  unfold cpuExecSeg14
  by_cases e0 : op = 0xEF
  · rw [if_pos e0]
    show ({ cpuPush st st.pc with pc := 0x28 } : GbCPU).f &&& 15 = 0
    rw [updPc_f, cpuPush_f]
    exact h
  rw [if_neg e0]
  by_cases e1 : op = 0xF0
  · rw [if_pos e1]; simp_all
  rw [if_neg e1]
  by_cases e2 : op = 0xF1
  · rw [if_pos e2]; simp_all
  rw [if_neg e2]
  by_cases e3 : op = 0xF2
  · rw [if_pos e3]; simp_all
  rw [if_neg e3]
  by_cases e4 : op = 0xF3
  · rw [if_pos e4]; simp_all
  rw [if_neg e4]
  by_cases e5 : op = 0xF5
  · rw [if_pos e5]; simp_all
  rw [if_neg e5]
  by_cases e6 : op = 0xF6
  · rw [if_pos e6]; simp_all
  rw [if_neg e6]
  by_cases e7 : op = 0xF7
  · rw [if_pos e7]
    show ({ cpuPush st st.pc with pc := 0x30 } : GbCPU).f &&& 15 = 0
    rw [updPc_f, cpuPush_f]
    exact h
  rw [if_neg e7]
  exact cpuExecSeg15_f st op h

set_option maxHeartbeats 1000000 in
theorem cpuExecSeg13_f (st : GbCPU) (op : Nat) (h : st.f &&& 15 = 0) :
    ((cpuExecSeg13 st op).1).f &&& 15 = 0 := by
  unfold cpuExecSeg13
  by_cases e0 : op = 0xE2
  · rw [if_pos e0]; simp_all
  rw [if_neg e0]
  by_cases e1 : op = 0xE5
  · rw [if_pos e1]; simp_all
  rw [if_neg e1]
  by_cases e2 : op = 0xE6
  · rw [if_pos e2]; simp_all
  rw [if_neg e2]
  by_cases e3 : op = 0xE7
  · rw [if_pos e3]
    show ({ cpuPush st st.pc with pc := 0x20 } : GbCPU).f &&& 15 = 0
    rw [updPc_f, cpuPush_f]
    exact h
  rw [if_neg e3]
  by_cases e4 : op = 0xE8
  · rw [if_pos e4]; simp_all
  rw [if_neg e4]
  by_cases e5 : op = 0xE9
  · rw [if_pos e5]; simp_all
  rw [if_neg e5]
  by_cases e6 : op = 0xEA
  · rw [if_pos e6]; simp_all
  rw [if_neg e6]
  by_cases e7 : op = 0xEE
  · rw [if_pos e7]; simp_all
  rw [if_neg e7]
  exact cpuExecSeg14_f st op h

set_option maxHeartbeats 1000000 in
theorem cpuExecSeg12_f (st : GbCPU) (op : Nat) (h : st.f &&& 15 = 0) :
    ((cpuExecSeg12 st op).1).f &&& 15 = 0 := by
  unfold cpuExecSeg12
  by_cases e0 : op = 0xD8
  · rw [if_pos e0]; simp_all
  rw [if_neg e0]
  by_cases e1 : op = 0xD9
  · rw [if_pos e1]; simp_all
  rw [if_neg e1]
  by_cases e2 : op = 0xDA
  · rw [if_pos e2]; simp_all
  rw [if_neg e2]
  by_cases e3 : op = 0xDC
  · rw [if_pos e3]; simp_all
  rw [if_neg e3]
  by_cases e4 : op = 0xDE
  · rw [if_pos e4]; simp_all
  rw [if_neg e4]
  by_cases e5 : op = 0xDF
  · rw [if_pos e5]
    show ({ cpuPush st st.pc with pc := 0x18 } : GbCPU).f &&& 15 = 0
    rw [updPc_f, cpuPush_f]
    exact h
  rw [if_neg e5]
  by_cases e6 : op = 0xE0
  · rw [if_pos e6]; simp_all
  rw [if_neg e6]
  by_cases e7 : op = 0xE1
  · rw [if_pos e7]; simp_all
  rw [if_neg e7]
  exact cpuExecSeg13_f st op h

set_option maxHeartbeats 1000000 in
theorem cpuExecSeg11_f (st : GbCPU) (op : Nat) (h : st.f &&& 15 = 0) :
    ((cpuExecSeg11 st op).1).f &&& 15 = 0 := by
  unfold cpuExecSeg11
  by_cases e0 : op = 0xCF
  · rw [if_pos e0]
    show ({ cpuPush st st.pc with pc := 0x08 } : GbCPU).f &&& 15 = 0
    rw [updPc_f, cpuPush_f]
    exact h
  rw [if_neg e0]
  by_cases e1 : op = 0xD0
  · rw [if_pos e1]; simp_all
  rw [if_neg e1]
  by_cases e2 : op = 0xD1
  · rw [if_pos e2]; simp_all
  rw [if_neg e2]
  by_cases e3 : op = 0xD2
  · rw [if_pos e3]; simp_all
  rw [if_neg e3]
  by_cases e4 : op = 0xD4
  · rw [if_pos e4]; simp_all
  rw [if_neg e4]
  by_cases e5 : op = 0xD5
  · rw [if_pos e5]; simp_all
  rw [if_neg e5]
  by_cases e6 : op = 0xD6
  · rw [if_pos e6]; simp_all
  rw [if_neg e6]
  by_cases e7 : op = 0xD7
  · rw [if_pos e7]
    show ({ cpuPush st st.pc with pc := 0x10 } : GbCPU).f &&& 15 = 0
    rw [updPc_f, cpuPush_f]
    exact h
  rw [if_neg e7]
  exact cpuExecSeg12_f st op h

set_option maxHeartbeats 1000000 in
theorem cpuExecSeg10_f (st : GbCPU) (op : Nat) (h : st.f &&& 15 = 0) :
    ((cpuExecSeg10 st op).1).f &&& 15 = 0 := by
  unfold cpuExecSeg10
  by_cases e0 : op = 0xC7
  · rw [if_pos e0]
    show ({ cpuPush st st.pc with pc := 0x00 } : GbCPU).f &&& 15 = 0
    rw [updPc_f, cpuPush_f]
    exact h
  rw [if_neg e0]
  by_cases e1 : op = 0xC8
  · rw [if_pos e1]; simp_all
  rw [if_neg e1]
  by_cases e2 : op = 0xC9
  · rw [if_pos e2]; simp_all
  rw [if_neg e2]
  by_cases e3 : op = 0xCA
  · rw [if_pos e3]; simp_all
  rw [if_neg e3]
  by_cases e4 : op = 0xCB
  · rw [if_pos e4]; simp_all
  rw [if_neg e4]
  by_cases e5 : op = 0xCC
  · rw [if_pos e5]; simp_all
  rw [if_neg e5]
  by_cases e6 : op = 0xCD
  · rw [if_pos e6]; simp_all
  rw [if_neg e6]
  by_cases e7 : op = 0xCE
  · rw [if_pos e7]; simp_all
  rw [if_neg e7]
  exact cpuExecSeg11_f st op h

set_option maxHeartbeats 1000000 in
theorem cpuExecSeg9_f (st : GbCPU) (op : Nat) (h : st.f &&& 15 = 0) :
    ((cpuExecSeg9 st op).1).f &&& 15 = 0 := by
  unfold cpuExecSeg9
  by_cases e0 : 0x80 ≤ op ∧ op ≤ 0xBF
  · rw [if_pos e0]; simp_all
  rw [if_neg e0]
  by_cases e1 : op = 0xC0
  · rw [if_pos e1]; simp_all
  rw [if_neg e1]
  by_cases e2 : op = 0xC1
  · rw [if_pos e2]; simp_all
  rw [if_neg e2]
  by_cases e3 : op = 0xC2
  · rw [if_pos e3]; simp_all
  rw [if_neg e3]
  by_cases e4 : op = 0xC3
  · rw [if_pos e4]; simp_all
  rw [if_neg e4]
  by_cases e5 : op = 0xC4
  · rw [if_pos e5]; simp_all
  rw [if_neg e5]
  by_cases e6 : op = 0xC5
  · rw [if_pos e6]; simp_all
  rw [if_neg e6]
  by_cases e7 : op = 0xC6
  · rw [if_pos e7]; simp_all
  rw [if_neg e7]
  exact cpuExecSeg10_f st op h

set_option maxHeartbeats 1000000 in
theorem cpuExecSeg8_f (st : GbCPU) (op : Nat) (h : st.f &&& 15 = 0) :
    ((cpuExecSeg8 st op).1).f &&& 15 = 0 := by
  unfold cpuExecSeg8
  by_cases e0 : op = 0x39
  · rw [if_pos e0]; simp_all
  rw [if_neg e0]
  by_cases e1 : op = 0x3A
  · rw [if_pos e1]; simp_all
  rw [if_neg e1]
  by_cases e2 : op = 0x3B
  · rw [if_pos e2]
    show ({ st with sp := (st.sp + 0xFFFF) &&& 0xFFFF } : GbCPU).f &&& 15 = 0
    rw [updSp_f]
    exact h
  rw [if_neg e2]
  by_cases e3 : op = 0x3C
  · rw [if_pos e3]; simp_all
  rw [if_neg e3]
  by_cases e4 : op = 0x3D
  · rw [if_pos e4]; simp_all
  rw [if_neg e4]
  by_cases e5 : op = 0x3E
  · rw [if_pos e5]; simp_all
  rw [if_neg e5]
  by_cases e6 : op = 0x3F
  · rw [if_pos e6]; simp_all
  rw [if_neg e6]
  by_cases e7 : 0x40 ≤ op ∧ op ≤ 0x7F
  · rw [if_pos e7]; simp_all
  rw [if_neg e7]
  exact cpuExecSeg9_f st op h

set_option maxHeartbeats 1000000 in
theorem cpuExecSeg7_f (st : GbCPU) (op : Nat) (h : st.f &&& 15 = 0) :
    ((cpuExecSeg7 st op).1).f &&& 15 = 0 := by
  unfold cpuExecSeg7
  by_cases e0 : op = 0x31
  · rw [if_pos e0]; simp_all
  rw [if_neg e0]
  by_cases e1 : op = 0x32
  · rw [if_pos e1]
    show (setHl { st with mmu := mmuWrite st.mmu (hl st) st.a } ((hl { st with mmu := mmuWrite st.mmu (hl st) st.a } + 0xFFFF) &&& 0xFFFF)).f &&& 15 = 0
    rw [setHl_f, updMmu_f]
    exact h
  rw [if_neg e1]
  by_cases e2 : op = 0x33
  · rw [if_pos e2]; simp_all
  rw [if_neg e2]
  by_cases e3 : op = 0x34
  · rw [if_pos e3]; simp_all
  rw [if_neg e3]
  by_cases e4 : op = 0x35
  · rw [if_pos e4]; simp_all
  rw [if_neg e4]
  by_cases e5 : op = 0x36
  · rw [if_pos e5]; simp_all
  rw [if_neg e5]
  by_cases e6 : op = 0x37
  · rw [if_pos e6]; simp_all
  rw [if_neg e6]
  by_cases e7 : op = 0x38
  · rw [if_pos e7]; simp_all
  rw [if_neg e7]
  exact cpuExecSeg8_f st op h

set_option maxHeartbeats 1000000 in
theorem cpuExecSeg6_f (st : GbCPU) (op : Nat) (h : st.f &&& 15 = 0) :
    ((cpuExecSeg6 st op).1).f &&& 15 = 0 := by
  unfold cpuExecSeg6
  by_cases e0 : op = 0x29
  · rw [if_pos e0]; simp_all
  rw [if_neg e0]
  by_cases e1 : op = 0x2A
  · rw [if_pos e1]; simp_all
  rw [if_neg e1]
  by_cases e2 : op = 0x2B
  · rw [if_pos e2]
    show (setHl st ((hl st + 0xFFFF) &&& 0xFFFF)).f &&& 15 = 0
    rw [setHl_f]
    exact h
  rw [if_neg e2]
  by_cases e3 : op = 0x2C
  · rw [if_pos e3]; simp_all
  rw [if_neg e3]
  by_cases e4 : op = 0x2D
  · rw [if_pos e4]; simp_all
  rw [if_neg e4]
  by_cases e5 : op = 0x2E
  · rw [if_pos e5]; simp_all
  rw [if_neg e5]
  by_cases e6 : op = 0x2F
  · rw [if_pos e6]; simp_all
  rw [if_neg e6]
  by_cases e7 : op = 0x30
  · rw [if_pos e7]; simp_all
  rw [if_neg e7]
  exact cpuExecSeg7_f st op h

set_option maxHeartbeats 1000000 in
theorem cpuExecSeg5_f (st : GbCPU) (op : Nat) (h : st.f &&& 15 = 0) :
    ((cpuExecSeg5 st op).1).f &&& 15 = 0 := by
  unfold cpuExecSeg5
  by_cases e0 : op = 0x21
  · rw [if_pos e0]; simp_all
  rw [if_neg e0]
  by_cases e1 : op = 0x22
  · rw [if_pos e1]; simp_all
  rw [if_neg e1]
  by_cases e2 : op = 0x23
  · rw [if_pos e2]; simp_all
  rw [if_neg e2]
  by_cases e3 : op = 0x24
  · rw [if_pos e3]; simp_all
  rw [if_neg e3]
  by_cases e4 : op = 0x25
  · rw [if_pos e4]; simp_all
  rw [if_neg e4]
  by_cases e5 : op = 0x26
  · rw [if_pos e5]; simp_all
  rw [if_neg e5]
  by_cases e6 : op = 0x27
  · rw [if_pos e6]; simp_all
  rw [if_neg e6]
  by_cases e7 : op = 0x28
  · rw [if_pos e7]; simp_all
  rw [if_neg e7]
  exact cpuExecSeg6_f st op h

set_option maxHeartbeats 1000000 in
theorem cpuExecSeg4_f (st : GbCPU) (op : Nat) (h : st.f &&& 15 = 0) :
    ((cpuExecSeg4 st op).1).f &&& 15 = 0 := by
  unfold cpuExecSeg4
  by_cases e0 : op = 0x19
  · rw [if_pos e0]; simp_all
  rw [if_neg e0]
  by_cases e1 : op = 0x1A
  · rw [if_pos e1]; simp_all
  rw [if_neg e1]
  by_cases e2 : op = 0x1B
  · rw [if_pos e2]
    show (setDe st ((de st + 0xFFFF) &&& 0xFFFF)).f &&& 15 = 0
    rw [setDe_f]
    exact h
  rw [if_neg e2]
  by_cases e3 : op = 0x1C
  · rw [if_pos e3]; simp_all
  rw [if_neg e3]
  by_cases e4 : op = 0x1D
  · rw [if_pos e4]; simp_all
  rw [if_neg e4]
  by_cases e5 : op = 0x1E
  · rw [if_pos e5]; simp_all
  rw [if_neg e5]
  by_cases e6 : op = 0x1F
  · rw [if_pos e6]; simp_all
  rw [if_neg e6]
  by_cases e7 : op = 0x20
  · rw [if_pos e7]; simp_all
  rw [if_neg e7]
  exact cpuExecSeg5_f st op h

set_option maxHeartbeats 1000000 in
theorem cpuExecSeg3_f (st : GbCPU) (op : Nat) (h : st.f &&& 15 = 0) :
    ((cpuExecSeg3 st op).1).f &&& 15 = 0 := by
  unfold cpuExecSeg3
  by_cases e0 : op = 0x11
  · rw [if_pos e0]; simp_all
  rw [if_neg e0]
  by_cases e1 : op = 0x12
  · rw [if_pos e1]; simp_all
  rw [if_neg e1]
  by_cases e2 : op = 0x13
  · rw [if_pos e2]; simp_all
  rw [if_neg e2]
  by_cases e3 : op = 0x14
  · rw [if_pos e3]; simp_all
  rw [if_neg e3]
  by_cases e4 : op = 0x15
  · rw [if_pos e4]; simp_all
  rw [if_neg e4]
  by_cases e5 : op = 0x16
  · rw [if_pos e5]; simp_all
  rw [if_neg e5]
  by_cases e6 : op = 0x17
  · rw [if_pos e6]; simp_all
  rw [if_neg e6]
  by_cases e7 : op = 0x18
  · rw [if_pos e7]; simp_all
  rw [if_neg e7]
  exact cpuExecSeg4_f st op h

set_option maxHeartbeats 1000000 in
theorem cpuExecSeg2_f (st : GbCPU) (op : Nat) (h : st.f &&& 15 = 0) :
    ((cpuExecSeg2 st op).1).f &&& 15 = 0 := by
  unfold cpuExecSeg2
  by_cases e0 : op = 0x08
  · rw [if_pos e0]; simp_all
  rw [if_neg e0]
  by_cases e1 : op = 0x09
  · rw [if_pos e1]; simp_all
  rw [if_neg e1]
  by_cases e2 : op = 0x0A
  · rw [if_pos e2]; simp_all
  rw [if_neg e2]
  by_cases e3 : op = 0x0B
  · rw [if_pos e3]
    show (setBc st ((bc st + 0xFFFF) &&& 0xFFFF)).f &&& 15 = 0
    rw [setBc_f]
    exact h
  rw [if_neg e3]
  by_cases e4 : op = 0x0C
  · rw [if_pos e4]; simp_all
  rw [if_neg e4]
  by_cases e5 : op = 0x0D
  · rw [if_pos e5]; simp_all
  rw [if_neg e5]
  by_cases e6 : op = 0x0E
  · rw [if_pos e6]; simp_all
  rw [if_neg e6]
  by_cases e7 : op = 0x0F
  · rw [if_pos e7]; simp_all
  rw [if_neg e7]
  exact cpuExecSeg3_f st op h

set_option maxHeartbeats 1000000 in
/-- Every opcode of `_exec` keeps the low nibble of `F` at zero: the only
flag writes go through the `zf`/`nf`/`hf`/`cf` setters (which mask it
away) or the `af` setter (which forces `f & 0xF0`). -/
theorem cpuExec_f (st : GbCPU) (op : Nat) (h : st.f &&& 15 = 0) :
    ((cpuExec st op).1).f &&& 15 = 0 := by
  unfold cpuExec
  by_cases e0 : op = 0x00
  · rw [if_pos e0]; simp_all
  rw [if_neg e0]
  by_cases e1 : op = 0x01
  · rw [if_pos e1]; simp_all
  rw [if_neg e1]
  by_cases e2 : op = 0x02
  · rw [if_pos e2]; simp_all
  rw [if_neg e2]
  by_cases e3 : op = 0x03
  · rw [if_pos e3]; simp_all
  rw [if_neg e3]
  by_cases e4 : op = 0x04
  · rw [if_pos e4]; simp_all
  rw [if_neg e4]
  by_cases e5 : op = 0x05
  · rw [if_pos e5]; simp_all
  rw [if_neg e5]
  by_cases e6 : op = 0x06
  · rw [if_pos e6]; simp_all
  rw [if_neg e6]
  by_cases e7 : op = 0x07
  · rw [if_pos e7]; simp_all
  rw [if_neg e7]
  exact cpuExecSeg2_f st op h

end GB

/-- C7: after reset and after every executed instruction, the low nibble
of the F register is zero.  Reset forces F = 0xB0; every opcode of
`_exec` (hence every `step`) only writes F through the flag setters
(which rebuild it as `(f & mask) | bit` with the low nibble masked away)
or the `af` setter (which stores `v & 0xF0`). -/
theorem claim_C7 :
    (∀ m : GB.GbMMU, (GB.cpuReset m).f &&& 0x0F = 0) ∧
    (∀ (st : GB.GbCPU) (op : Nat), st.f &&& 0x0F = 0 →
      ((GB.cpuExec st op).1).f &&& 0x0F = 0) ∧
    (∀ st : GB.GbCPU, st.f &&& 0x0F = 0 →
      ((GB.cpuStep st).1).f &&& 0x0F = 0) := by
  refine ⟨fun m => by show (0xB0 : Nat) &&& 0x0F = 0; decide,
    fun st op h => GB.cpuExec_f st op h,
    fun st h => ?_⟩
  unfold GB.cpuStep
  by_cases hh : st.halted = true
  · rw [if_pos hh]
    exact h
  · rw [if_neg hh]
    show ((GB.cpuExec (GB.fetch st).2 (GB.fetch st).1).1).f &&& 0x0F = 0
    refine GB.cpuExec_f _ _ ?_
    rw [GB.fetch_f]
    exact h

/-- Witness for C7: the invariant is discharged at the reset state (its
F is 0xB0), at opcode 0x37 (SCF) from reset, and at one fetched step
from reset. -/
theorem claim_C7_witness :
    (GB.cpuReset GB.mmuReset).f &&& 0x0F = 0 ∧
    ((GB.cpuExec (GB.cpuReset GB.mmuReset) 0x37).1).f &&& 0x0F = 0 ∧
    ((GB.cpuStep (GB.cpuReset GB.mmuReset)).1).f &&& 0x0F = 0 :=
  ⟨claim_C7.1 GB.mmuReset,
   claim_C7.2.1 (GB.cpuReset GB.mmuReset) 0x37 (claim_C7.1 GB.mmuReset),
   claim_C7.2.2 (GB.cpuReset GB.mmuReset) (claim_C7.1 GB.mmuReset)⟩

/-- C3 (amended): HALT (opcode 0x76) sets the halted flag and charges 4
cycles, and a halted CPU's `step` returns 4 cycles leaving the state
untouched (no opcode executes).  The claim's wake-up clause is false:
nothing in `CPU.step` examines IF and IE or clears the flag — see
`claim_C3_counterexample`. -/
theorem claim_C3 :
    (∀ st : GB.GbCPU, GB.cpuExec st 0x76 = ({ st with halted := true }, 4)) ∧
    (∀ st : GB.GbCPU, st.halted = true → GB.cpuStep st = (st, 4)) := by
  constructor
  · intro st
    show GB.cpuExec st 0x76 = ({ st with halted := true }, 4)
    simp [GB.cpuExec, GB.cpuExecSeg2, GB.cpuExecSeg3, GB.cpuExecSeg4,
      GB.cpuExecSeg5, GB.cpuExecSeg6, GB.cpuExecSeg7, GB.cpuExecSeg8,
      GB.cpuExecSeg9]
  · intro st h
    unfold GB.cpuStep
    rw [if_pos h]

/-- Counterexample for C3's wake-up clause: `c3state` is halted with
IF = IE = 0x01 (a pending, enabled interrupt), yet `step` returns with
the same state — `halted` remains set and no opcode runs. -/
theorem claim_C3_counterexample :
    GB.mmuRead GB.c3state.mmu 0xFF0F &&& GB.mmuRead GB.c3state.mmu 0xFFFF ≠ 0 ∧
    GB.cpuStep GB.c3state = (GB.c3state, 4) ∧
    (GB.cpuStep GB.c3state).1.halted = true :=
  ⟨by decide, rfl, rfl⟩

/-- Witness for C3: the halted branch is exercised at `c3state`, whose
halted flag is set. -/
theorem claim_C3_witness :
    GB.cpuExec GB.c3state 0x76 = ({ GB.c3state with halted := true }, 4) ∧
    GB.c3state.halted = true ∧ GB.cpuStep GB.c3state = (GB.c3state, 4) :=
  ⟨claim_C3.1 GB.c3state, rfl, claim_C3.2 GB.c3state rfl⟩
